import Mathlib

/-!
Shallow embedding of the generation dispatchers of `appRU.py`
(NeuroSandboxWebUI).

The program is thin orchestration over external ML libraries.  The
embedding keeps the program's own control flow exactly (validation order,
string messages, `try`/`except`/`finally` structure, the global flag and
the global caches) and replaces each external library call by an oracle
carried in a per-call environment record: the environment says whether the
call raises (and which exception class), what text a transcription
returns, whether the user presses the stop button while the call runs,
and which wall-clock timestamp strings `datetime.now()` renders.

Observable effects (model loads, `del` releases, `torch.cuda.empty_cache`,
output-file writes, directory creation, weight downloads and the
checkpoint at which the stop flag was observed true) are recorded in a
`Trace`.  Mutable module-level globals (`stop_signal`, `chat_history`,
`chat_dir`, `audiocraft_model_path`) live in `GState`, threaded through
calls so that sequences of dispatcher invocations can be reasoned about.

Python-specific conventions used throughout:
* a Python exception is a `PyExc`; `str(e)` is modelled by `PyExc.str`;
* `Except PyExc` models raising: `.error e` is an exception escaping the
  modelled function;
* Python truthiness of optional strings (`if not x:`) is `strFalsy`;
* weight downloads are recorded in `Trace.downloads`, distinct from
  output artifacts in `Trace.filesWritten`.
-/

/-- Python exception classes that the source catches or raises,
with their message (`str(e)`). -/
inductive PyExc where
  | valueError (msg : String)
  | keyError (msg : String)
  | runtimeError (msg : String)
  | osError (msg : String)
  | assertionError (msg : String)
  | typeError (msg : String)
  | otherError (msg : String)
deriving DecidableEq, Repr

/-- `str(e)` for an exception: the stored message. -/
def PyExc.str : PyExc → String
  | .valueError m => m
  | .keyError m => m
  | .runtimeError m => m
  | .osError m => m
  | .assertionError m => m
  | .typeError m => m
  | .otherError m => m

/-- `except (ValueError, KeyError)` as used by the image pipelines. -/
def PyExc.isValueOrKey : PyExc → Bool
  | .valueError _ => true
  | .keyError _ => true
  | _ => false

/-- `except (OSError, RuntimeError)` as used by the transformers load. -/
def PyExc.isOsOrRuntime : PyExc → Bool
  | .osError _ => true
  | .runtimeError _ => true
  | _ => false

/-- `except (ValueError, RuntimeError)` as used by the llama load. -/
def PyExc.isValueOrRuntime : PyExc → Bool
  | .valueError _ => true
  | .runtimeError _ => true
  | _ => false

/-- `except (ValueError, AssertionError)` as used by the audiocraft load. -/
def PyExc.isValueOrAssertion : PyExc → Bool
  | .valueError _ => true
  | .assertionError _ => true
  | _ => false

/-- Python truthiness test `not x` for an optional string argument:
`None` and the empty string are falsy. -/
def strFalsy : Option String → Bool
  | none => true
  | some s => s == ""

/-- Module-level mutable globals of `appRU.py` that survive across
dispatcher calls.  (`tts_model` and `whisper_model` are also globals in
the source, but every chat call sets them to `None` on entry and deletes
them in its `finally`, so they carry no state between calls and are kept
local to the chat embedding.) -/
structure GState where
  stop_signal : Bool
  chat_history : List (Option String × Option String)
  chat_dir : Option String
  audiocraft_model_path : Option String
deriving DecidableEq, Repr

/-- Observable side effects of one dispatcher call. -/
structure Trace where
  loaded : List String
  released : List String
  cacheCleared : Bool
  filesWritten : List String
  dirsMade : List String
  downloads : List String
  stoppedAt : Option String
deriving DecidableEq, Repr

def Trace.empty : Trace := ⟨[], [], false, [], [], [], none⟩

/-- A model handle comes into memory (a `from_pretrained` /
`from_single_file` / `get_pretrained` / `load_model` success). -/
def Trace.load (t : Trace) (h : String) : Trace :=
  { t with loaded := t.loaded ++ [h] }

/-- An explicit `del` of a model handle. -/
def Trace.release (t : Trace) (h : String) : Trace :=
  { t with released := t.released ++ [h] }

/-- `torch.cuda.empty_cache()`. -/
def Trace.clearCache (t : Trace) : Trace :=
  { t with cacheCleared := true }

/-- An output artifact file written (image/audio/video/transcript). -/
def Trace.writeFile (t : Trace) (p : String) : Trace :=
  { t with filesWritten := t.filesWritten ++ [p] }

/-- `os.makedirs`. -/
def Trace.mkdir (t : Trace) (p : String) : Trace :=
  { t with dirsMade := t.dirsMade ++ [p] }

/-- A blocking model-weight download (`Repo.clone_from` / `requests.get`). -/
def Trace.download (t : Trace) (p : String) : Trace :=
  { t with downloads := t.downloads ++ [p] }

/-- A cancellation checkpoint observed the stop flag true. -/
def Trace.stopObs (t : Trace) (cp : String) : Trace :=
  { t with stoppedAt := some cp }

deriving instance DecidableEq for Except

/-- Result of running one dispatcher call: the returned value or the
escaping exception, the final globals, and the effect trace. -/
structure Outcome (α : Type) where
  result : Except PyExc α
  state : GState
  trace : Trace
deriving Repr

instance {α : Type} [DecidableEq α] : DecidableEq (Outcome α) := by
  intro a b
  cases a
  cases b
  exact decidable_of_iff _ (iff_of_eq (Outcome.mk.injEq _ _ _ _ _ _)).symm

/-- `outputs/StableDiffusion_<date>` shared by the image/video dispatchers. -/
def sd_image_dir (date : String) : String :=
  "outputs/StableDiffusion_" ++ date

/-- txt2img output path: `outputs/StableDiffusion_<date>/txt2img_<time>.png`
where `<time>` renders `%Y%m%d_%H%M%S` (one-second granularity). -/
def txt2img_output_path (date time : String) : String :=
  sd_image_dir date ++ "/" ++ ("txt2img_" ++ time ++ ".png")

/-- img2img output path. -/
def img2img_output_path (date time : String) : String :=
  sd_image_dir date ++ "/" ++ ("img2img_" ++ time ++ ".png")

/-- inpaint output path. -/
def inpaint_output_path (date time : String) : String :=
  sd_image_dir date ++ "/" ++ ("inpaint_" ++ time ++ ".png")

/-- video output path. -/
def video_output_path (date time : String) : String :=
  sd_image_dir date ++ "/" ++ ("video_" ++ time ++ ".mp4")

/-- extras output path. -/
def extras_output_path (date time : String) : String :=
  sd_image_dir date ++ "/" ++ ("extras_" ++ time ++ ".png")

/-- audio output base path (the library appends `.wav`). -/
def audio_output_path (date time : String) : String :=
  "outputs/AudioCraft_" ++ date ++ "/" ++ ("audio_" ++ time)

/-- `load_upscale_model(upscale_factor)`: stop checkpoint at entry, then a
weight download on first use and an upscaler pipeline load.  On the
stopped branch the source returns the tuple `(None, "Generation stopped")`
(a truthy value for its callers); that branch is only reachable when the
flag is already true at the call, which the callers exclude, and is
modelled as `none` here. -/
def load_upscale_model (factor : Nat) (cached : Bool) (s : GState) (t : Trace) :
    Option String × Trace :=
  if s.stop_signal then
    (none, t.stopObs "load_upscale_entry")
  else
    let nm := if factor = 2 then "upscaler-x2" else "upscaler-x4"
    let t := if cached then t else
      t.download ("inputs/image/sd_models/upscale/" ++
        (if factor = 2 then "x2-upscaler" else "x4-upscaler"))
    (some nm, t.load nm)

/-- The inpaint mask binarization
`np.where(mask_array < 255, 0, 255).astype(np.uint8)` applied to the
grayscale pixel values of the mask image. -/
def binarize_mask (mask : List Nat) : List Nat :=
  mask.map (fun v => if v < 255 then 0 else 255)

/-! ## Chat dispatcher (`generate_text_and_speech`) -/

/-- Oracles for the external calls made by one chat request. -/
structure ChatEnv where
  cuda : Bool
  /-- whisper weights already on disk (no download). -/
  whisperCached : Bool
  /-- TTS weights already on disk. -/
  ttsCached : Bool
  /-- what `whisper_model.transcribe` returns. -/
  transcription : String
  /-- the stop button is pressed while the transcription runs. -/
  stopDuringTranscribe : Bool
  /-- exception raised while loading the LLM (caught classes become the
  incompatibility message, others escape `load_model`). -/
  llmLoadExc : Option PyExc
  /-- the stop button is pressed while the LLM load runs: the flag is true
  when `load_model` returns, so the next entry checkpoints
  (`load_tts_model` / `load_whisper_model`) observe it and return the
  string "Generation stopped" in place of a model. -/
  stopDuringLLMLoad : Bool
  /-- `langdetect.detect(prompt)`. -/
  detectLang : String
  /-- the text produced by the LLM inference call. -/
  llmOutput : String
  /-- the stop button is pressed while the LLM inference runs. -/
  stopDuringGenerate : Bool
  /-- exception raised by the LLM inference call. -/
  genExc : Option PyExc
  /-- exception raised by the TTS synthesis call. -/
  ttsExc : Option PyExc
  /-- `%Y%m%d_%H%M%S` timestamp used for a fresh chat directory. -/
  time : String
  /-- timestamp used for the TTS output filename. -/
  ttsTime : String
deriving DecidableEq, Repr

/-- The arguments of `generate_text_and_speech` that influence modelled
behavior (numeric sampling hyperparameters are passed through to the
library call unchanged and are omitted). -/
structure ChatArgs where
  input_text : String
  input_audio : Option String
  llm_model_name : Option String
  llm_model_type : String
  avatar_name : Option String
  enable_tts : Bool
  speaker_wav : Option String
  language : Option String
deriving DecidableEq, Repr

/-- `transcribe_audio`: stop checkpoint at entry, a weight download on
first use, a whisper model load (never explicitly released), and the
transcription result.  If the stop button is pressed while it runs the
global flag is true afterwards. -/
def transcribe_audio (env : ChatEnv) (s : GState) (t : Trace) :
    String × GState × Trace :=
  if s.stop_signal then
    ("Generation stopped", s, t.stopObs "transcribe_entry")
  else
    let t := if env.whisperCached then t
             else t.download "inputs/text/whisper-medium/medium.pt"
    let t := t.load "whisper-transcribe"
    let s := if env.stopDuringTranscribe then { s with stop_signal := true } else s
    (env.transcription, s, t)

/-- `load_model(model_name, model_type)`: stop checkpoint at entry; for
`"transformers"` a tokenizer and model load with `(OSError, RuntimeError)`
caught as an incompatibility message; for `"llama"` a model load with
`(ValueError, RuntimeError)` caught; any other type (or a falsy name)
returns `(None, None, None)`.  The returned booleans say whether a
tokenizer / model handle is now in memory. -/
def load_model (env : ChatEnv) (model_name : Option String)
    (model_type : String) (s : GState) (t : Trace) :
    Except PyExc (Bool × Bool × Option String) × GState × Trace :=
  if s.stop_signal then
    (.ok (false, false, some "Generation stopped"), s, t.stopObs "load_model_entry")
  else if ¬ strFalsy model_name then
    if model_type == "transformers" then
      -- a stop pressed while the blocking load runs leaves the flag true
      -- for the caller (no further checkpoint inside `load_model`).
      let s := if env.stopDuringLLMLoad then { s with stop_signal := true } else s
      match env.llmLoadExc with
      | some e =>
        if e.isOsOrRuntime then
          (.ok (false, false,
            some "The selected model is not compatible with the \x27transformers\x27 model type"), s, t)
        else (.error e, s, t)
      | none => (.ok (true, true, none), s, (t.load "tokenizer").load "llm_model")
    else if model_type == "llama" then
      let s := if env.stopDuringLLMLoad then { s with stop_signal := true } else s
      match env.llmLoadExc with
      | some e =>
        if e.isValueOrRuntime then
          (.ok (false, false,
            some "The selected model is not compatible with the \x27llama\x27 model type"), s, t)
        else (.error e, s, t)
      | none => (.ok (false, true, none), s, t.load "llm_model")
    else (.ok (false, false, none), s, t)
  else (.ok (false, false, none), s, t)

/-- The value a chat call hands back to the UI.  The source returns a
5-tuple `(chat_history, audio_path, avatar_path, chat_dir, message)` on
most paths but a 4-tuple on the two mid-generation stop paths; the two
arities are kept apart. -/
inductive ChatRet where
  | five (hist : List (Option String × Option String))
      (audio avatar dir msg : Option String)
  | four (hist : List (Option String × Option String))
      (a b c : Option String)
deriving DecidableEq, Repr

/-- How the body of the chat `try` block ended: a `return` executed
inside the block, an exception, or falling through to the final append. -/
inductive ChatBody where
  | ret (r : ChatRet)
  | exc (e : PyExc)
  | done (text : Option String) (audioPath : Option String) (avatarPath : Option String)
deriving DecidableEq, Repr

/-- The chat `finally` block: `del` each of tokenizer / llm model / tts
model / whisper model that is bound, then `torch.cuda.empty_cache()`. -/
def chat_finally (hasTok hasLLM hasTTS hasWhisper : Bool) (t : Trace) : Trace :=
  let t := if hasTok then t.release "tokenizer" else t
  let t := if hasLLM then t.release "llm_model" else t
  let t := if hasTTS then t.release "tts_model" else t
  let t := if hasWhisper then t.release "whisper_model" else t
  t.clearCache

/-- The tail of the chat `try` body once `text` is fixed: chat-directory
creation on first turn, the transcript append, the avatar path, the
pre-TTS stop checkpoint and TTS synthesis. -/
def chat_after_text (env : ChatEnv) (a : ChatArgs) (prompt : String)
    (text : Option String) (hasTTS hasWhisper : Bool) (s : GState) (t : Trace) :
    ChatBody × Bool × Bool × GState × Trace :=
  let (dir, s, t) :=
    match s.chat_dir with
    | none =>
      let d := "outputs/LLM_" ++ env.time
      (d, { s with chat_dir := some d },
        ((t.mkdir d).mkdir (d ++ "/text")).mkdir (d ++ "/audio"))
    | some d => (d, s, t)
  let t := t.writeFile (dir ++ "/text/chat_history.txt")
  let avatarPath := if strFalsy a.avatar_name then none
    else some ("inputs/image/avatars/" ++ a.avatar_name.getD "")
  if a.enable_tts ∧ ¬ strFalsy text then
    if s.stop_signal then
      let s := { s with chat_history := s.chat_history ++ [(some prompt, text)] }
      (.ret (.five s.chat_history none avatarPath s.chat_dir (some "Generation stopped")),
        hasTTS, hasWhisper, s, t.stopObs "before_tts")
    else
      match env.ttsExc with
      | some e => (.exc e, hasTTS, hasWhisper, s, t)
      | none =>
        let audioPath := dir ++ "/audio/" ++ ("TTS_" ++ env.ttsTime ++ ".wav")
        (.done text (some audioPath) avatarPath, hasTTS, hasWhisper, s,
          t.writeFile audioPath)
  else
    (.done text none avatarPath, hasTTS, hasWhisper, s, t)

/-- The `if llm_model:` stage of the chat `try` body: the primary
inference per model type, its post-generation stop checkpoint, and the
shared tail `chat_after_text`. -/
def chat_llm_stage (env : ChatEnv) (a : ChatArgs) (prompt : String)
    (hasLLM hasTTS hasWhisper : Bool) (s : GState) (t : Trace) :
    ChatBody × Bool × Bool × GState × Trace :=
  if hasLLM ∧ (a.llm_model_type == "transformers" ∨ a.llm_model_type == "llama") then
    -- language detection selects one of two fixed instruction
    -- preambles; the preamble only feeds the prompt string.
    match env.genExc with
    | some e => (.exc e, hasTTS, hasWhisper, s, t)
    | none =>
      let s := if env.stopDuringGenerate then { s with stop_signal := true } else s
      if s.stop_signal then
        let s := { s with chat_history :=
          s.chat_history ++ [(some prompt, some "Generation stopped")] }
        (.ret (.four s.chat_history none none none), hasTTS, hasWhisper, s,
          t.stopObs "after_llm_generate")
      else
        chat_after_text env a prompt (some env.llmOutput) hasTTS hasWhisper s t
  else
    chat_after_text env a prompt none hasTTS hasWhisper s t

/-- The body of the chat `try` block (source lines 242-373): optional TTS
and whisper loads, the LLM inference with its stop checkpoint, chat
directory creation, the transcript append, and optional TTS synthesis.
Returns the body outcome plus whether TTS / whisper handles are bound
(for the `finally`). -/
def chat_body (env : ChatEnv) (a : ChatArgs) (prompt : String) (hasLLM : Bool)
    (s : GState) (t : Trace) : ChatBody × Bool × Bool × GState × Trace :=
  -- `if enable_tts: tts_model = load_tts_model()` — the loader's entry
  -- checkpoint returns the string "Generation stopped" when the flag is
  -- already up (the binding is non-None either way), otherwise it
  -- downloads on first use and loads the model.  Voice/language are
  -- validated next, and only then does `tts_model.to(device)` run —
  -- raising AttributeError when the binding is the stopped string.
  let hasTTS := a.enable_tts
  let t := if a.enable_tts then
      (if s.stop_signal then t.stopObs "load_tts_entry"
       else (if env.ttsCached then t else t.download "inputs/audio/XTTS-v2").load "tts_model")
    else t
  if a.enable_tts ∧ (strFalsy a.speaker_wav ∨ strFalsy a.language) then
    let s := { s with chat_history :=
      s.chat_history ++ [(none, some "Please, select a voice and language for TTS!")] }
    (.ret (.five s.chat_history none none none none), hasTTS, false, s, t)
  else if a.enable_tts ∧ s.stop_signal then
    (.exc (.otherError "AttributeError: str object has no attribute to"),
      hasTTS, false, s, t)
  else
      -- `if input_audio: whisper_model = load_whisper_model()` — the same
      -- entry checkpoint, then `whisper_model.to(device)`.
      let hasWhisper := ¬ strFalsy a.input_audio
      if (¬ strFalsy a.input_audio) ∧ s.stop_signal then
        (.exc (.otherError "AttributeError: str object has no attribute to"),
          hasTTS, hasWhisper, s, t.stopObs "load_whisper_entry")
      else
      let t := if ¬ strFalsy a.input_audio then
          (if env.whisperCached then t
           else t.download "inputs/text/whisper-medium/medium.pt").load "whisper_model"
        else t
      chat_llm_stage env a prompt hasLLM hasTTS hasWhisper s t

/-- `generate_text_and_speech`: the chat dispatcher. -/
def generate_text_and_speech (env : ChatEnv) (a : ChatArgs) (s0 : GState) :
    Outcome ChatRet :=
  let s := { s0 with stop_signal := false }
  let t := Trace.empty
  if a.input_text == "" ∧ strFalsy a.input_audio then
    let s := { s with chat_history :=
      s.chat_history ++ [(some "Please, enter your request!", none)] }
    ⟨.ok (.five s.chat_history none none none none), s, t⟩
  else
    let (prompt, s, t) :=
      if strFalsy a.input_audio then (a.input_text, s, t)
      else transcribe_audio env s t
    if strFalsy a.llm_model_name then
      let s := { s with chat_history :=
        s.chat_history ++ [(none, some "Please, select a LLM model!")] }
      ⟨.ok (.five s.chat_history none none none none), s, t⟩
    else
      match load_model env a.llm_model_name a.llm_model_type s t with
      | (.error e, s, t) => ⟨.error e, s, t⟩
      | (.ok (_hasTok, _hasLLM, some m), s, t) =>
        let s := { s with chat_history := s.chat_history ++ [(none, some m)] }
        ⟨.ok (.five s.chat_history none none none none), s, t⟩
      | (.ok (hasTok, hasLLM, none), s, t) =>
        match chat_body env a prompt hasLLM s t with
        | (.ret r, hasTTS, hasWhisper, s, t) =>
          ⟨.ok r, s, chat_finally hasTok hasLLM hasTTS hasWhisper t⟩
        | (.exc e, hasTTS, hasWhisper, s, t) =>
          ⟨.error e, s, chat_finally hasTok hasLLM hasTTS hasWhisper t⟩
        | (.done text audioPath avatarPath, hasTTS, hasWhisper, s, t) =>
          let t := chat_finally hasTok hasLLM hasTTS hasWhisper t
          let s := { s with chat_history := s.chat_history ++ [(some prompt, text)] }
          ⟨.ok (.five s.chat_history audioPath avatarPath s.chat_dir none), s, t⟩

/-! ## Image dispatchers (`generate_image_txt2img` / `img2img` / `inpaint`) -/

/-- Oracles for one txt2img request. -/
structure T2IEnv where
  cuda : Bool
  /-- `os.path.exists` of the `.safetensors` checkpoint. -/
  modelFileExists : Bool
  /-- exception raised by `from_single_file` (only `ValueError`/`KeyError`
  are caught as the incompatibility message). -/
  loadExc : Option PyExc
  /-- `os.path.exists` of the optional VAE file. -/
  vaeFileExists : Bool
  /-- exception raised while loading/applying the VAE (outside any
  `try`/`finally` in the source). -/
  vaeExc : Option PyExc
  /-- exception raised by `load_lora_weights` (outside any `try`/`finally`). -/
  loraExc : Option PyExc
  /-- exception raised by the primary diffusion inference call. -/
  inferExc : Option PyExc
  /-- the stop button is pressed while the primary inference runs. -/
  stopDuringInfer : Bool
  /-- upscaler weights already on disk. -/
  upscaleCached : Bool
  /-- `today.strftime` date. -/
  date : String
  /-- `datetime.now().strftime` second-granularity timestamp. -/
  time : String
deriving DecidableEq, Repr

structure T2IArgs where
  prompt : String
  negative_prompt : String
  stable_diffusion_model_name : Option String
  vae_model_name : Option String
  lora_model_names : Option (List String)
  stable_diffusion_model_type : String
  enable_upscale : Bool
  upscale_factor : String
deriving DecidableEq, Repr

/-- The shared `finally` of the three image dispatchers:
`del stable_diffusion_model; torch.cuda.empty_cache()`. -/
def sd_pipeline_finally (t : Trace) : Trace :=
  (t.release "stable_diffusion_model").clearCache

/-- The upscale step of txt2img: `load_upscale_model` then the upscaler
inference.  When `load_upscale_model` took its stopped branch it returned
the tuple `(None, "Generation stopped")`, which is truthy, so the source
would call the tuple and raise `TypeError` (unreachable here because the
flag is false when this step runs). -/
def txt2img_upscale_step (enable : Bool) (factor : String) (cached : Bool)
    (s : GState) (t : Trace) : Except PyExc Unit × Trace :=
  if enable then
    match load_upscale_model (if factor == "x2" then 2 else 4) cached s t with
    | (some _, t) => (.ok (), t)
    | (none, t) => (.error (.typeError "tuple object is not callable"), t)
  else (.ok (), t)

/-- `generate_image_txt2img`. -/
def generate_image_txt2img (env : T2IEnv) (a : T2IArgs) (s0 : GState) :
    Outcome (Option String × Option String) :=
  let s := { s0 with stop_signal := false }
  let t := Trace.empty
  if strFalsy a.stable_diffusion_model_name then
    ⟨.ok (none, some "Please, select a StableDiffusion model!"), s, t⟩
  else
    let modelPath := "inputs/image/sd_models/" ++
      (a.stable_diffusion_model_name.getD "" ++ ".safetensors")
    if ¬ env.modelFileExists then
      ⟨.ok (none, some ("StableDiffusion model not found: " ++ modelPath)), s, t⟩
    else if a.stable_diffusion_model_type == "SD" ∨
        a.stable_diffusion_model_type == "SD2" ∨
        a.stable_diffusion_model_type == "SDXL" then
      match env.loadExc with
      | some e =>
        if e.isValueOrKey then
          ⟨.ok (none, some "The selected model is not compatible with the chosen model type"), s, t⟩
        else ⟨.error e, s, t⟩
      | none =>
        let t := t.load "stable_diffusion_model"
        -- xformers / `.to(device)` / `safety_checker = None`: no modelled effect.
        -- Optional VAE application — outside any `try`/`finally`.
        let vaeRes : Option PyExc :=
          if a.vae_model_name.isSome ∧ env.vaeFileExists then env.vaeExc else none
        match vaeRes with
        | some e => ⟨.error e, s, t⟩
        | none =>
          -- Optional LoRA application — outside any `try`/`finally`.
          let loraRes : Option PyExc :=
            match a.lora_model_names with
            | some l => if l.isEmpty then none else env.loraExc
            | none => none
          match loraRes with
          | some e => ⟨.error e, s, t⟩
          | none =>
            -- inner `try ... finally` around inference, upscale, save.
            match env.inferExc with
            | some e => ⟨.error e, s, sd_pipeline_finally t⟩
            | none =>
              let s := if env.stopDuringInfer then { s with stop_signal := true } else s
              if s.stop_signal then
                ⟨.ok (none, some "Generation stopped"), s,
                  sd_pipeline_finally (t.stopObs "after_main_inference")⟩
              else
                match txt2img_upscale_step a.enable_upscale a.upscale_factor
                    env.upscaleCached s t with
                | (.error e, t) => ⟨.error e, s, sd_pipeline_finally t⟩
                | (.ok _, t) =>
                  let dir := sd_image_dir env.date
                  let path := txt2img_output_path env.date env.time
                  let t := (t.mkdir dir).writeFile path
                  ⟨.ok (some path, none), s, sd_pipeline_finally t⟩
    else ⟨.ok (none, some "Invalid StableDiffusion model type!"), s, t⟩

/-- Oracles for one img2img request. -/
structure I2IEnv where
  cuda : Bool
  modelFileExists : Bool
  loadExc : Option PyExc
  vaeFileExists : Bool
  vaeExc : Option PyExc
  /-- exception raised inside the guarded generation block (image open,
  preprocessing, the inference call or the save) — the source catches it
  with a blanket `except Exception` and stringifies it. -/
  innerExc : Option PyExc
  stopDuringInfer : Bool
  date : String
  time : String
deriving DecidableEq, Repr

structure I2IArgs where
  prompt : String
  negative_prompt : String
  init_image : Option String
  stable_diffusion_model_name : Option String
  vae_model_name : Option String
  stable_diffusion_model_type : String
deriving DecidableEq, Repr

/-- `generate_image_img2img`: like txt2img but with an initial-image
validation and a blanket `except Exception as e: return None, str(e)`
around the generation block (the only dispatcher with one). -/
def generate_image_img2img (env : I2IEnv) (a : I2IArgs) (s0 : GState) :
    Outcome (Option String × Option String) :=
  let s := { s0 with stop_signal := false }
  let t := Trace.empty
  if strFalsy a.stable_diffusion_model_name then
    ⟨.ok (none, some "Please, select a StableDiffusion model!"), s, t⟩
  else if strFalsy a.init_image then
    ⟨.ok (none, some "Please, upload an initial image!"), s, t⟩
  else
    let modelPath := "inputs/image/sd_models/" ++
      (a.stable_diffusion_model_name.getD "" ++ ".safetensors")
    if ¬ env.modelFileExists then
      ⟨.ok (none, some ("StableDiffusion model not found: " ++ modelPath)), s, t⟩
    else if a.stable_diffusion_model_type == "SD" ∨
        a.stable_diffusion_model_type == "SD2" ∨
        a.stable_diffusion_model_type == "SDXL" then
      match env.loadExc with
      | some e =>
        if e.isValueOrKey then
          ⟨.ok (none, some "The selected model is not compatible with the chosen model type"), s, t⟩
        else ⟨.error e, s, t⟩
      | none =>
        let t := t.load "stable_diffusion_model"
        let vaeRes : Option PyExc :=
          if a.vae_model_name.isSome ∧ env.vaeFileExists then env.vaeExc else none
        match vaeRes with
        | some e => ⟨.error e, s, t⟩
        | none =>
          -- `try ... except Exception as e: return None, str(e) ... finally`.
          match env.innerExc with
          | some e => ⟨.ok (none, some e.str), s, sd_pipeline_finally t⟩
          | none =>
            let s := if env.stopDuringInfer then { s with stop_signal := true } else s
            if s.stop_signal then
              ⟨.ok (none, some "Generation stopped"), s,
                sd_pipeline_finally (t.stopObs "after_main_inference")⟩
            else
              let dir := sd_image_dir env.date
              let path := img2img_output_path env.date env.time
              let t := (t.mkdir dir).writeFile path
              ⟨.ok (some path, none), s, sd_pipeline_finally t⟩
    else ⟨.ok (none, some "Invalid StableDiffusion model type!"), s, t⟩

/-- The mask argument of inpaint: the UI editor hands a dict with a
`composite` key, a plain file path, or something else entirely. -/
inductive MaskInput where
  | editorDict (composite : Option String)
  | filePath (p : String)
  | invalid
deriving DecidableEq, Repr

/-- Opening the inpaint mask: a dict without `composite` and an
unrecognized format both raise `ValueError` (inside the guarded block, so
the `finally` still runs). -/
def mask_load : MaskInput → Except PyExc Unit
  | .editorDict none => .error (.valueError "Invalid mask image data: missing \x27composite\x27 key")
  | .editorDict (some _) => .ok ()
  | .filePath _ => .ok ()
  | .invalid => .error (.valueError "Invalid mask image format")

/-- Oracles for one inpaint request. -/
structure InpaintEnv where
  cuda : Bool
  modelFileExists : Bool
  loadExc : Option PyExc
  vaeFileExists : Bool
  vaeExc : Option PyExc
  /-- exception raised by the inpaint inference call. -/
  inferExc : Option PyExc
  stopDuringInfer : Bool
  /-- grayscale pixel values of the opened mask image (uint8). -/
  maskPixels : List Nat
  date : String
  time : String
deriving DecidableEq, Repr

structure InpaintArgs where
  prompt : String
  negative_prompt : String
  init_image : Option String
  mask_image : Option MaskInput
  stable_diffusion_model_name : Option String
  vae_model_name : Option String
  stable_diffusion_model_type : String
deriving DecidableEq, Repr

/-- `generate_image_inpaint`: model path under the `inpaint` subdirectory,
mask normalization to a strict binary mask before compositing, otherwise
the txt2img shape.  The binarized mask (resized to the initial image with
nearest-neighbour sampling, which introduces no new values) is what the
inference consumes. -/
def generate_image_inpaint (env : InpaintEnv) (a : InpaintArgs) (s0 : GState) :
    Outcome (Option String × Option String) :=
  let s := { s0 with stop_signal := false }
  let t := Trace.empty
  if strFalsy a.stable_diffusion_model_name then
    ⟨.ok (none, some "Please, select a StableDiffusion model!"), s, t⟩
  else if strFalsy a.init_image ∨ a.mask_image = none then
    ⟨.ok (none, some "Please, upload an initial image and a mask image!"), s, t⟩
  else
    let modelPath := "inputs/image/sd_models/inpaint/" ++
      (a.stable_diffusion_model_name.getD "" ++ ".safetensors")
    if ¬ env.modelFileExists then
      ⟨.ok (none, some ("StableDiffusion model not found: " ++ modelPath)), s, t⟩
    else if a.stable_diffusion_model_type == "SD" ∨
        a.stable_diffusion_model_type == "SD2" ∨
        a.stable_diffusion_model_type == "SDXL" then
      match env.loadExc with
      | some e =>
        if e.isValueOrKey then
          ⟨.ok (none, some "The selected model is not compatible with the chosen model type"), s, t⟩
        else ⟨.error e, s, t⟩
      | none =>
        let t := t.load "stable_diffusion_model"
        let vaeRes : Option PyExc :=
          if a.vae_model_name.isSome ∧ env.vaeFileExists then env.vaeExc else none
        match vaeRes with
        | some e => ⟨.error e, s, t⟩
        | none =>
          -- `try ... finally` around mask processing, inference, save.
          match mask_load ((a.mask_image).getD .invalid) with
          | .error e => ⟨.error e, s, sd_pipeline_finally t⟩
          | .ok _ =>
            let _maskArray := binarize_mask env.maskPixels
            match env.inferExc with
            | some e => ⟨.error e, s, sd_pipeline_finally t⟩
            | none =>
              let s := if env.stopDuringInfer then { s with stop_signal := true } else s
              if s.stop_signal then
                ⟨.ok (none, some "Generation stopped"), s,
                  sd_pipeline_finally (t.stopObs "after_main_inference")⟩
              else
                let dir := sd_image_dir env.date
                let path := inpaint_output_path env.date env.time
                let t := (t.mkdir dir).writeFile path
                ⟨.ok (some path, none), s, sd_pipeline_finally t⟩
    else ⟨.ok (none, some "Invalid StableDiffusion model type!"), s, t⟩

/-! ## Video dispatcher (`generate_video`) -/

structure VideoEnv where
  /-- video model weights already on disk. -/
  videoCached : Bool
  /-- exception raised by `StableVideoDiffusionPipeline.from_pretrained`. -/
  pipeLoadExc : Option PyExc
  /-- exception raised by the video inference call. -/
  inferExc : Option PyExc
  stopDuringInfer : Bool
  date : String
  time : String
deriving DecidableEq, Repr

structure VideoArgs where
  init_image : Option String
  fps : Nat
deriving DecidableEq, Repr

/-- The video `finally`: `del pipe` guarded by `except UnboundLocalError:
pass` (so a load failure skips the release), then `empty_cache()`. -/
def video_finally (pipeLoaded : Bool) (t : Trace) : Trace :=
  (if pipeLoaded then t.release "video_pipe" else t).clearCache

/-- `generate_video`: fixed model, fixed seed, no input validation. -/
def generate_video (env : VideoEnv) (_a : VideoArgs) (s0 : GState) :
    Outcome (Option String × Option String) :=
  let s := { s0 with stop_signal := false }
  let t := Trace.empty
  let t := if env.videoCached then t
           else t.download "inputs/image/sd_models/video"
  match env.pipeLoadExc with
  | some e => ⟨.error e, s, video_finally false t⟩
  | none =>
    let t := t.load "video_pipe"
    -- `load_image(init_image)`, resize to 1024x576, fixed seed 42.
    match env.inferExc with
    | some e => ⟨.error e, s, video_finally true t⟩
    | none =>
      let s := if env.stopDuringInfer then { s with stop_signal := true } else s
      if s.stop_signal then
        ⟨.ok (none, some "Generation stopped"), s,
          video_finally true (t.stopObs "after_main_inference")⟩
      else
        let dir := sd_image_dir env.date
        let path := video_output_path env.date env.time
        let t := (t.mkdir dir).writeFile path
        ⟨.ok (some path, none), s, video_finally true t⟩

/-! ## Extras dispatcher (`generate_image_extras`) -/

structure ExtrasEnv where
  upscaleCached : Bool
  date : String
  time : String
deriving DecidableEq, Repr

structure ExtrasArgs where
  image_path : Option String
  enable_upscale : Bool
deriving DecidableEq, Repr

/-- `generate_image_extras`.  Unlike every other dispatcher it does NOT
reset `stop_signal`; it reads the pre-existing flag at its entry
checkpoint.  It also has no `finally`: the loaded upscaler is never
`del`-ed and `empty_cache` is never called. -/
def generate_image_extras (env : ExtrasEnv) (a : ExtrasArgs) (s0 : GState) :
    Outcome (Option String × Option String) :=
  let t := Trace.empty
  if s0.stop_signal then
    ⟨.ok (none, some "Generation stopped"), s0, t.stopObs "extras_entry"⟩
  else if ¬ a.enable_upscale then
    ⟨.ok (none, some "Please enable upscale to generate an image!"), s0, t⟩
  else if strFalsy a.image_path then
    ⟨.ok (none, some "Please, upload an initial image!"), s0, t⟩
  else
    match load_upscale_model 2 env.upscaleCached s0 t with
    | (some _, t) =>
      let dir := sd_image_dir env.date
      let path := extras_output_path env.date env.time
      ⟨.ok (some path, none), s0, (t.mkdir dir).writeFile path⟩
    | (none, t) =>
      -- the stopped loader returns the TUPLE `(None, "Generation stopped")`,
      -- which is truthy, so `if upscaler:` is taken and `upscaler(prompt=...)`
      -- raises TypeError.  (Unreachable here: the flag is false when the
      -- load runs.)
      ⟨.error (.typeError "tuple object is not callable"), s0, t⟩

/-! ## Audio dispatcher (`generate_audio`) -/

structure AudioEnv where
  cuda : Bool
  /-- audiocraft weights directory already on disk. -/
  modelDirCached : Bool
  /-- exception raised by `MusicGen/AudioGen.get_pretrained` itself
  (`ValueError`/`AssertionError` are caught as the incompatibility
  message; no handle is in memory either way). -/
  getPretrainedExc : Option PyExc
  /-- exception raised by `model.set_generation_params(duration=...)` after
  a successful `get_pretrained` (same `except` clause catches
  `ValueError`/`AssertionError`, but the loaded handle stays in memory:
  this first `try` has no `finally`). -/
  setGenParamsExc : Option PyExc
  /-- exception raised by `MultiBandDiffusion.get_mbd_musicgen()`, which
  runs between the two `try` blocks: nothing catches it and the model
  handle stays loaded. -/
  mbdLoadExc : Option PyExc
  /-- exception raised by the audio generation call. -/
  genExc : Option PyExc
  /-- the stop button is pressed while the generation runs. -/
  stopDuringGenerate : Bool
  date : String
  time : String
deriving DecidableEq, Repr

structure AudioArgs where
  prompt : String
  input_audio : Option String
  model_name : Option String
  model_type : String
  duration : Nat
  enable_multiband : Bool
deriving DecidableEq, Repr

/-- `load_audiocraft_model(model_name)`: stop checkpoint at entry (the
stopped branch returns the string "Generation stopped" without touching
the global), otherwise sets the global `audiocraft_model_path` to
`inputs/audio/audiocraft/<model_name>`, downloads on first use, and
returns the path. -/
def load_audiocraft_model (name : String) (cached : Bool) (s : GState) (t : Trace) :
    String × GState × Trace :=
  if s.stop_signal then
    ("Generation stopped", s, t.stopObs "load_audiocraft_entry")
  else
    let path := "inputs/audio/audiocraft/" ++ name
    let s := { s with audiocraft_model_path := some path }
    let t := if cached then t else t.download path
    (path, s, t)

/-- The audio `finally`: `del model`, `del mbd` if multiband was loaded,
`empty_cache()`. -/
def audio_finally (handle : String) (hasMbd : Bool) (t : Trace) : Trace :=
  let t := t.release handle
  let t := if hasMbd then t.release "multiband_diffusion" else t
  t.clearCache

/-- The part of `generate_audio` after the global model path has been
resolved (source lines 799-874): output directory creation, the guarded
model construction, the optional multiband loader, and the
`try ... finally` around generation, the post-generation stop checkpoint,
the optional multiband artifact and the final `audio_write`. -/
def generate_audio_core (env : AudioEnv) (a : AudioArgs) (mpath : String)
    (s : GState) (t : Trace) : Outcome (Option String × Option String) :=
  let audioDir := "outputs/AudioCraft_" ++ env.date
  let t := t.mkdir audioDir
  -- `try ... except (ValueError, AssertionError)` around model construction
  -- (no `finally` on this first try).
  if a.model_type == "musicgen" ∨ a.model_type == "audiogen" then
    match env.getPretrainedExc with
    | some e =>
      if e.isValueOrAssertion then
        ⟨.ok (none, some "The selected model is not compatible with the chosen model type"), s, t⟩
      else ⟨.error e, s, t⟩
    | none =>
      let handle := (if a.model_type == "musicgen" then "MusicGen:" else "AudioGen:") ++ mpath
      let t := t.load handle
      -- `model.set_generation_params(duration=duration)` runs inside the
      -- same guarded block but after the handle is in memory: either exit
      -- (the caught incompatibility return or an escaping exception)
      -- performs no `del` and no `empty_cache`.
      match env.setGenParamsExc with
      | some e =>
        if e.isValueOrAssertion then
          ⟨.ok (none, some "The selected model is not compatible with the chosen model type"), s, t⟩
        else ⟨.error e, s, t⟩
      | none =>
      -- `if enable_multiband: mbd = MultiBandDiffusion.get_mbd_musicgen()`
      -- (outside both try blocks: a raise here escapes with the model
      -- handle still loaded).
      match (if a.enable_multiband then env.mbdLoadExc else none) with
      | some e => ⟨.error e, s, t⟩
      | none =>
      let t := if a.enable_multiband then t.load "multiband_diffusion" else t
      -- `try ... finally` around generation (melody-conditioned or plain —
      -- same oracles), the post-generation stop checkpoint, the optional
      -- multiband artifact and the final `audio_write`.
      match env.genExc with
      | some e => ⟨.error e, s, audio_finally handle a.enable_multiband t⟩
      | none =>
        let s := if env.stopDuringGenerate then { s with stop_signal := true } else s
        if s.stop_signal then
          ⟨.ok (none, some "Generation stopped"), s,
            audio_finally handle a.enable_multiband (t.stopObs "after_generate")⟩
        else
          let t := if a.enable_multiband then
              t.writeFile (audioDir ++ "/" ++ ("audio_" ++ env.time ++ "_diffusion.wav"))
            else t
          let path := audio_output_path env.date env.time
          let t := t.writeFile (path ++ ".wav")
          ⟨.ok (some (path ++ ".wav"), none), s, audio_finally handle a.enable_multiband t⟩
  else ⟨.ok (none, some "Invalid model type!"), s, t⟩

/-- `generate_audio`.  Validation order as in the source: missing model
name, then the multiband/model-type incompatibility, then the permanent
"magnet" rejection.  The resolved model path is cached in the global
`audiocraft_model_path`: it is only recomputed when the global is falsy. -/
def generate_audio (env : AudioEnv) (a : AudioArgs) (s0 : GState) :
    Outcome (Option String × Option String) :=
  let s := { s0 with stop_signal := false }
  let t := Trace.empty
  if strFalsy a.model_name then
    ⟨.ok (none, some "Please, select an AudioCraft model!"), s, t⟩
  else if a.enable_multiband ∧
      (a.model_type == "audiogen" ∨ a.model_type == "magnet") then
    ⟨.ok (none, some ("Multiband Diffusion is not supported with \x27audiogen\x27 or " ++
      "\x27magnet\x27 model types. Please select \x27musicgen\x27 or disable Multiband Diffusion")), s, t⟩
  else if a.model_type == "magnet" then
    ⟨.ok (none, some ("The \x27magnet\x27 model type is currently not supported, " ++
      "but it will be available in a future update. Please select another model type for now")), s, t⟩
  else
    -- `if not audiocraft_model_path: audiocraft_model_path = load_audiocraft_model(model_name)`
    let (s, t) :=
      if strFalsy s.audiocraft_model_path then
        let (p, s, t) := load_audiocraft_model (a.model_name.getD "") env.modelDirCached s t
        ({ s with audiocraft_model_path := some p }, t)
      else (s, t)
    generate_audio_core env a ((s.audiocraft_model_path).getD "") s t

/-! ## Shared facts and inputs for the verification -/

/-- Fresh process state: flag down, empty chat history, no chat directory,
no cached audiocraft path. -/
def initState : GState := ⟨false, [], none, none⟩

/-- Left cancellation for string concatenation. -/
theorem str_append_cancel_left {a b c : String} (h : a ++ b = a ++ c) : b = c := by
  apply String.ext
  have hd := congrArg String.data h
  simp only [String.data_append] at hd
  exact List.append_cancel_left hd

/-- Right cancellation for string concatenation. -/
theorem str_append_cancel_right {a b c : String} (h : a ++ c = b ++ c) : a = b := by
  apply String.ext
  have hd := congrArg String.data h
  simp only [String.data_append] at hd
  exact List.append_cancel_right hd

/-! ## C8 — inpaint mask binarization -/

/-- C8: for every input mask whose (uint8 grayscale) pixel values are at
most 255, the derived mask `binarize_mask` contains only the values 0 and
255, and holds 255 at exactly the positions where the input value equals
255. -/
theorem C8_mask_binarization (m : List Nat) (hm : ∀ v ∈ m, v ≤ 255) :
    (∀ w ∈ binarize_mask m, w = 0 ∨ w = 255) ∧
    (∀ i : Nat, ((binarize_mask m)[i]? = some 255 ↔ m[i]? = some 255)) := by
  constructor
  · intro w hw
    simp only [binarize_mask, List.mem_map] at hw
    obtain ⟨v, _, rfl⟩ := hw
    by_cases h : v < 255 <;> simp [h]
  · intro i
    unfold binarize_mask
    rw [List.getElem?_map]
    cases h : m[i]? with
    | none => simp
    | some v =>
      have hvm : v ∈ m := List.mem_iff_getElem?.mpr ⟨i, h⟩
      have hv : v ≤ 255 := hm v hvm
      by_cases hlt : v < 255
      · have : v ≠ 255 := Nat.ne_of_lt hlt
        simp [hlt, this]
      · have : v = 255 := Nat.le_antisymm hv (Nat.le_of_not_lt hlt)
        simp [hlt, this]

/-- C8 witness: the spec's own instance, a mask whose values are
{0,128,254,255}: the hypothesis holds and the conclusions follow. -/
theorem C8_mask_binarization_witness :
    (∀ v ∈ ([0, 128, 254, 255] : List Nat), v ≤ 255) ∧
    (∀ w ∈ binarize_mask [0, 128, 254, 255], w = 0 ∨ w = 255) ∧
    (∀ i : Nat, ((binarize_mask [0, 128, 254, 255])[i]? = some 255 ↔
      ([0, 128, 254, 255] : List Nat)[i]? = some 255)) :=
  ⟨by decide, (C8_mask_binarization [0, 128, 254, 255] (by decide)).1,
    (C8_mask_binarization [0, 128, 254, 255] (by decide)).2⟩

/-! ## C2 — the "magnet" rejection in the audio dispatcher -/

def c2Env : AudioEnv :=
  { cuda := false, modelDirCached := true, getPretrainedExc := none, setGenParamsExc := none, mbdLoadExc := none, genExc := none,
    stopDuringGenerate := false, date := "20240101", time := "20240101_120000" }

/-- C2 counterexample: with `model_type = "magnet"` but `model_name`
missing, the call returns the missing-model message, not the magnet
message — the missing-model check at the top of `generate_audio` runs
first, so the claimed behavior does not hold for every value of the other
parameters. -/
theorem C2_counterexample :
    (generate_audio c2Env
      ⟨"ambient", none, none, "magnet", 10, false⟩ initState).result =
      .ok (none, some "Please, select an AudioCraft model!") ∧
    (generate_audio c2Env
      ⟨"ambient", none, none, "magnet", 10, false⟩ initState).result ≠
      .ok (none, some ("The \x27magnet\x27 model type is currently not supported, " ++
        "but it will be available in a future update. Please select another model type for now")) :=
  ⟨rfl, by decide⟩

/-- C2 amended: for every audio call with `model_type = "magnet"`, a
non-empty `model_name` and `enable_multiband = false`, the dispatcher
short-circuits with the fixed magnet message, loads nothing and writes
nothing (the two earlier validations — missing model name and multiband
incompatibility — take precedence and return their own messages). -/
theorem C2_magnet_amended (env : AudioEnv) (a : AudioArgs) (s : GState)
    (h1 : strFalsy a.model_name = false) (h2 : a.enable_multiband = false)
    (h3 : a.model_type = "magnet") :
    generate_audio env a s =
      ⟨.ok (none, some ("The \x27magnet\x27 model type is currently not supported, " ++
        "but it will be available in a future update. Please select another model type for now")),
        { s with stop_signal := false }, Trace.empty⟩ := by
  simp [generate_audio, generate_audio_core, h1, h2, h3]

/-- C2 witness: a concrete magnet request with a selected model and no
multiband satisfies the hypotheses, and the theorem applies. -/
theorem C2_magnet_amended_witness :
    strFalsy (some "magnet-medium-30sec") = false ∧
    generate_audio c2Env ⟨"ambient", none, some "magnet-medium-30sec", "magnet", 10, false⟩ initState =
      ⟨.ok (none, some ("The \x27magnet\x27 model type is currently not supported, " ++
        "but it will be available in a future update. Please select another model type for now")),
        { initState with stop_signal := false }, Trace.empty⟩ :=
  ⟨rfl, C2_magnet_amended c2Env
    ⟨"ambient", none, some "magnet-medium-30sec", "magnet", 10, false⟩ initState rfl rfl rfl⟩

/-! ## C3 — flag reset at dispatcher entry -/

def c3Env : ExtrasEnv := { upscaleCached := true, date := "20240101", time := "20240101_120000" }

/-- C3 counterexample: `generate_image_extras` does not reset
`stop_signal`; with the flag already true from before the call, the call
is cancelled at its entry checkpoint, while the identical call with the
flag down succeeds — so a stop signaled before a request starts does
cancel that request for this dispatcher. -/
theorem C3_counterexample :
    (generate_image_extras c3Env ⟨some "img.png", true⟩ ⟨true, [], none, none⟩).result =
      .ok (none, some "Generation stopped") ∧
    (generate_image_extras c3Env ⟨some "img.png", true⟩ initState).result =
      .ok (some "outputs/StableDiffusion_20240101/extras_20240101_120000.png", none) :=
  ⟨rfl, rfl⟩

/-- C3 amended: the six generation dispatchers (chat, txt2img, img2img,
inpaint, video, audio) set `stop_signal` to false as their first action,
so their behavior is independent of the flag value left by earlier
activity; `generate_image_extras` is the exception — it does not reset the
flag and instead returns "Generation stopped" whenever the flag is
already up at its entry. -/
theorem C3_flag_reset_amended :
    (∀ (env : ChatEnv) (a : ChatArgs) (s : GState),
      generate_text_and_speech env a { s with stop_signal := true } =
      generate_text_and_speech env a { s with stop_signal := false }) ∧
    (∀ (env : T2IEnv) (a : T2IArgs) (s : GState),
      generate_image_txt2img env a { s with stop_signal := true } =
      generate_image_txt2img env a { s with stop_signal := false }) ∧
    (∀ (env : I2IEnv) (a : I2IArgs) (s : GState),
      generate_image_img2img env a { s with stop_signal := true } =
      generate_image_img2img env a { s with stop_signal := false }) ∧
    (∀ (env : InpaintEnv) (a : InpaintArgs) (s : GState),
      generate_image_inpaint env a { s with stop_signal := true } =
      generate_image_inpaint env a { s with stop_signal := false }) ∧
    (∀ (env : VideoEnv) (a : VideoArgs) (s : GState),
      generate_video env a { s with stop_signal := true } =
      generate_video env a { s with stop_signal := false }) ∧
    (∀ (env : AudioEnv) (a : AudioArgs) (s : GState),
      generate_audio env a { s with stop_signal := true } =
      generate_audio env a { s with stop_signal := false }) ∧
    (∀ (env : ExtrasEnv) (a : ExtrasArgs) (s : GState),
      (generate_image_extras env a { s with stop_signal := true }).result =
      .ok (none, some "Generation stopped")) := by
  refine ⟨?_, ?_, ?_, ?_, ?_, ?_, ?_⟩ <;> exact fun env a s => rfl

/-! ## C4 — missing model selection -/

def c4Env : ChatEnv :=
  { cuda := false, whisperCached := true, ttsCached := true,
    transcription := "hello there", stopDuringTranscribe := false,
    llmLoadExc := none, stopDuringLLMLoad := false, detectLang := "en",
    llmOutput := "resp", stopDuringGenerate := false, genExc := none,
    ttsExc := none, time := "20240101_120000", ttsTime := "20240101_120001" }

/-- C4 counterexample: a chat call with spoken input and no LLM model
selected transcribes the audio first — loading the speech-to-text model —
and then reports the missing-model message by appending it to the chat
history (returning the 5-tuple `(history, None, None, None, None)`), not
by returning the pair `(None, message)`; so for this dispatcher a model
load does happen and the return shape is not the claimed pair. -/
theorem C4_counterexample :
    (generate_text_and_speech c4Env
        ⟨"", some "request.wav", none, "transformers", none, false, none, none⟩
        initState).trace.loaded = ["whisper-transcribe"] ∧
    (generate_text_and_speech c4Env
        ⟨"", some "request.wav", none, "transformers", none, false, none, none⟩
        initState).result =
      .ok (.five [(none, some "Please, select a LLM model!")] none none none none) :=
  ⟨rfl, rfl⟩

/-- C4 amended: for txt2img, img2img, inpaint and audio, a missing model
selection (None or empty-string name) returns `(None, <that dispatcher's
message>)` immediately, with no model load, no download, no directory
creation and no file write (the whole effect trace is empty).  The chat
dispatcher instead appends its message to the chat history and returns
the history tuple; when spoken input is supplied it has already loaded
and run the transcription model before the check (the counterexample);
the video dispatcher has no model selection. -/
theorem C4_missing_model_amended :
    (∀ (env : T2IEnv) (pr np : String) (vn : Option String)
        (lo : Option (List String)) (mt : String) (eu : Bool) (uf : String) (s : GState),
      generate_image_txt2img env ⟨pr, np, none, vn, lo, mt, eu, uf⟩ s =
        ⟨.ok (none, some "Please, select a StableDiffusion model!"),
          { s with stop_signal := false }, Trace.empty⟩) ∧
    (∀ (env : T2IEnv) (pr np : String) (vn : Option String)
        (lo : Option (List String)) (mt : String) (eu : Bool) (uf : String) (s : GState),
      generate_image_txt2img env ⟨pr, np, some "", vn, lo, mt, eu, uf⟩ s =
        ⟨.ok (none, some "Please, select a StableDiffusion model!"),
          { s with stop_signal := false }, Trace.empty⟩) ∧
    (∀ (env : I2IEnv) (pr np : String) (ii vn : Option String) (mt : String) (s : GState),
      generate_image_img2img env ⟨pr, np, ii, none, vn, mt⟩ s =
        ⟨.ok (none, some "Please, select a StableDiffusion model!"),
          { s with stop_signal := false }, Trace.empty⟩) ∧
    (∀ (env : InpaintEnv) (pr np : String) (ii : Option String) (mi : Option MaskInput)
        (vn : Option String) (mt : String) (s : GState),
      generate_image_inpaint env ⟨pr, np, ii, mi, none, vn, mt⟩ s =
        ⟨.ok (none, some "Please, select a StableDiffusion model!"),
          { s with stop_signal := false }, Trace.empty⟩) ∧
    (∀ (env : AudioEnv) (pr : String) (ia : Option String) (mt : String)
        (d : Nat) (mb : Bool) (s : GState),
      generate_audio env ⟨pr, ia, none, mt, d, mb⟩ s =
        ⟨.ok (none, some "Please, select an AudioCraft model!"),
          { s with stop_signal := false }, Trace.empty⟩) ∧
    (∀ (env : ChatEnv) (mt : String) (av : Option String) (tts : Bool)
        (sw lg : Option String) (s : GState),
      generate_text_and_speech env ⟨"hi", none, none, mt, av, tts, sw, lg⟩ s =
        ⟨.ok (.five (s.chat_history ++ [(none, some "Please, select a LLM model!")])
            none none none none),
          { s with
            stop_signal := false
            chat_history := s.chat_history ++ [(none, some "Please, select a LLM model!")] },
          Trace.empty⟩) :=
  ⟨fun _ _ _ _ _ _ _ _ _ => rfl, fun _ _ _ _ _ _ _ _ _ => rfl,
    fun _ _ _ _ _ _ _ => rfl, fun _ _ _ _ _ _ _ _ => rfl,
    fun _ _ _ _ _ _ _ => rfl, fun _ _ _ _ _ _ _ => rfl⟩

/-! ## C5 — model loading across audio calls -/

def c5Env : AudioEnv :=
  { cuda := false, modelDirCached := true, getPretrainedExc := none, setGenParamsExc := none, mbdLoadExc := none, genExc := none,
    stopDuringGenerate := false, date := "20240101", time := "20240101_120000" }

def c5FirstCall : Outcome (Option String × Option String) :=
  generate_audio c5Env
    ⟨"piano piece", none, some "musicgen-stereo-medium", "musicgen", 10, false⟩ initState

/-- C5 counterexample: after a first audio call with
`model_name = "musicgen-stereo-medium"`, a second call with
`model_name = "audiogen-medium"` does NOT load the model named by its own
argument: the global `audiocraft_model_path` is still set from the first
call, so the second call builds its model from the first call's weight
directory. -/
theorem C5_counterexample :
    (generate_audio c5Env
      ⟨"dog barking", none, some "audiogen-medium", "audiogen", 10, false⟩
      c5FirstCall.state).trace.loaded =
        ["AudioGen:inputs/audio/audiocraft/musicgen-stereo-medium"] ∧
    (generate_audio c5Env
      ⟨"dog barking", none, some "audiogen-medium", "audiogen", 10, false⟩
      c5FirstCall.state).state.audiocraft_model_path =
        some "inputs/audio/audiocraft/musicgen-stereo-medium" :=
  ⟨rfl, rfl⟩

/-- C5 amended: every dispatcher reloads its model inside the call (no
handle survives), but the audio dispatcher's model *path* is cached in the
global `audiocraft_model_path`: a call that finds the global unset (the
process's first audio call) resolves the path from its own `model_name`
and loads from it, while every later call reuses the cached path whatever
its own `model_name` says. -/
theorem C5_load_amended :
    (∀ (env : AudioEnv) (a : AudioArgs) (s : GState),
      s.audiocraft_model_path = none →
      strFalsy a.model_name = false → a.model_type = "musicgen" →
      a.enable_multiband = false → env.getPretrainedExc = none →
      env.setGenParamsExc = none →
      (generate_audio env a s).trace.loaded =
        ["MusicGen:" ++ ("inputs/audio/audiocraft/" ++ a.model_name.getD "")] ∧
      (generate_audio env a s).state.audiocraft_model_path =
        some ("inputs/audio/audiocraft/" ++ a.model_name.getD "")) ∧
    (∀ (env : AudioEnv) (a : AudioArgs) (s : GState) (p : String),
      s.audiocraft_model_path = some p → p ≠ "" →
      strFalsy a.model_name = false → a.model_type = "musicgen" →
      a.enable_multiband = false → env.getPretrainedExc = none →
      env.setGenParamsExc = none →
      (generate_audio env a s).trace.loaded = ["MusicGen:" ++ p] ∧
      (generate_audio env a s).state.audiocraft_model_path = some p) := by
  constructor
  · rintro ⟨cu, mc, gpe, spe, mbe, ge, sg, da, ti⟩ ⟨pr, ia, mn, mt, d, mb⟩ ⟨ss, ch, cd, ap⟩
      h1 h2 h3 h4 h5 h6
    simp only at h1 h3 h4 h5 h6
    subst h1; subst h3; subst h4; subst h5; subst h6
    cases mn with
    | none => simp [strFalsy] at h2
    | some nm =>
      simp only [strFalsy] at h2
      cases ge <;> cases sg <;> cases mc <;>
        simp [generate_audio, generate_audio_core, load_audiocraft_model, audio_finally,
          Trace.load, Trace.mkdir, Trace.download, Trace.release, Trace.clearCache,
          Trace.writeFile, Trace.stopObs, Trace.empty, strFalsy, h2]
  · rintro ⟨cu, mc, gpe, spe, mbe, ge, sg, da, ti⟩ ⟨pr, ia, mn, mt, d, mb⟩ ⟨ss, ch, cd, ap⟩ p
      h0 hp h2 h3 h4 h5 h6
    simp only at h0 h3 h4 h5 h6
    subst h0; subst h3; subst h4; subst h5; subst h6
    cases mn with
    | none => simp [strFalsy] at h2
    | some nm =>
      simp only [strFalsy] at h2
      cases ge <;> cases sg <;> cases mc <;>
        simp [generate_audio, generate_audio_core, load_audiocraft_model, audio_finally,
          Trace.load, Trace.mkdir, Trace.download, Trace.release, Trace.clearCache,
          Trace.writeFile, Trace.stopObs, Trace.empty, strFalsy, h2, hp]

def c5w1Args : AudioArgs :=
  ⟨"piano piece", none, some "musicgen-stereo-medium", "musicgen", 10, false⟩

def c5w2Args : AudioArgs :=
  ⟨"another piece", none, some "musicgen-stereo-melody", "musicgen", 10, false⟩

/-- C5 witness: on a fresh state the first call loads from the path
derived from its own name; threading its final state into a second call
with a different name still loads from the first path. -/
theorem C5_load_amended_witness :
    initState.audiocraft_model_path = none ∧
    ((generate_audio c5Env c5w1Args initState).trace.loaded =
        ["MusicGen:" ++ ("inputs/audio/audiocraft/" ++ c5w1Args.model_name.getD "")] ∧
      (generate_audio c5Env c5w1Args initState).state.audiocraft_model_path =
        some ("inputs/audio/audiocraft/" ++ c5w1Args.model_name.getD "")) ∧
    ((generate_audio c5Env c5w2Args c5FirstCall.state).trace.loaded =
        ["MusicGen:" ++ "inputs/audio/audiocraft/musicgen-stereo-medium"] ∧
      (generate_audio c5Env c5w2Args c5FirstCall.state).state.audiocraft_model_path =
        some "inputs/audio/audiocraft/musicgen-stereo-medium") :=
  ⟨rfl,
    C5_load_amended.1 c5Env c5w1Args initState rfl rfl rfl rfl rfl rfl,
    C5_load_amended.2 c5Env c5w2Args c5FirstCall.state
      "inputs/audio/audiocraft/musicgen-stereo-medium" rfl (by decide) rfl rfl rfl rfl rfl⟩

/-! ## C6 — output path uniqueness -/

def c6Env : T2IEnv :=
  { cuda := false, modelFileExists := true, loadExc := none,
    vaeFileExists := false, vaeExc := none, loraExc := none, inferExc := none,
    stopDuringInfer := false, upscaleCached := true,
    date := "20240101", time := "20240101_120000" }

def c6ArgsA : T2IArgs :=
  ⟨"a cat", "", some "model", none, none, "SD", false, "x2"⟩

def c6ArgsB : T2IArgs :=
  ⟨"a dog", "", some "model", none, none, "SD", false, "x2"⟩

/-- C6 counterexample: two successful txt2img calls whose filenames are
generated within the same wall-clock second produce the SAME output path
and write the same file (the second save overwrites the first) — the
timestamp has one-second granularity and there is no collision-avoidance
rule. -/
theorem C6_counterexample :
    (generate_image_txt2img c6Env c6ArgsA initState).result =
      .ok (some "outputs/StableDiffusion_20240101/txt2img_20240101_120000.png", none) ∧
    (generate_image_txt2img c6Env c6ArgsB initState).result =
      .ok (some "outputs/StableDiffusion_20240101/txt2img_20240101_120000.png", none) ∧
    (generate_image_txt2img c6Env c6ArgsA initState).trace.filesWritten =
      (generate_image_txt2img c6Env c6ArgsB initState).trace.filesWritten :=
  ⟨rfl, rfl, rfl⟩

/-- C6 amended: output paths are timestamp-based at one-second
granularity with no collision-avoidance rule: a successful txt2img call
returns exactly `outputs/StableDiffusion_<date>/txt2img_<time>.png`, so
two same-day calls whose `%H%M%S` timestamps differ get distinct paths,
while two calls in the same second collide (the counterexample). -/
theorem C6_path_amended :
    (∀ d u1 u2 : String, u1 ≠ u2 →
      txt2img_output_path d u1 ≠ txt2img_output_path d u2) ∧
    (∀ (env : T2IEnv) (a : T2IArgs) (s : GState),
      strFalsy a.stable_diffusion_model_name = false →
      env.modelFileExists = true → a.stable_diffusion_model_type = "SD" →
      env.loadExc = none → env.vaeExc = none → env.loraExc = none →
      env.inferExc = none → env.stopDuringInfer = false →
      (generate_image_txt2img env a s).result =
        .ok (some (txt2img_output_path env.date env.time), none)) := by
  constructor
  · intro d u1 u2 hne he
    apply hne
    unfold txt2img_output_path at he
    have h1 := str_append_cancel_left he
    have h2 := str_append_cancel_right h1
    exact str_append_cancel_left h2
  · rintro ⟨cu, mfe, le, vfe, ve, lre, ie, sdi, uc, da, ti⟩
      ⟨pr, np, mn, vn, lo, mt, eu, uf⟩ ⟨ss, ch, cd, ap⟩ h1 h2 h3 h4 h5 h6 h7 h8
    simp only at h1 h2 h3 h4 h5 h6 h7 h8
    subst h2; subst h3; subst h4; subst h5; subst h6; subst h7; subst h8
    cases mn with
    | none => simp [strFalsy] at h1
    | some nm =>
      simp only [strFalsy] at h1
      cases eu <;> cases uc <;> cases lo <;> cases vn <;>
        by_cases huf : (uf == "x2") = true <;>
        simp [generate_image_txt2img, txt2img_upscale_step, load_upscale_model,
          txt2img_output_path, sd_image_dir, Trace.load, Trace.mkdir, Trace.download,
          Trace.writeFile, Trace.release, Trace.clearCache, Trace.stopObs, Trace.empty,
          sd_pipeline_finally, strFalsy, h1, huf]

/-- C6 witness: distinct second-timestamps give distinct paths, and a
concrete successful run returns exactly the formula path. -/
theorem C6_path_amended_witness :
    ("20240101_120000" : String) ≠ "20240101_120001" ∧
    txt2img_output_path "20240101" "20240101_120000" ≠
      txt2img_output_path "20240101" "20240101_120001" ∧
    (generate_image_txt2img c6Env c6ArgsA initState).result =
      .ok (some (txt2img_output_path "20240101" "20240101_120000"), none) :=
  ⟨by decide, C6_path_amended.1 "20240101" "20240101_120000" "20240101_120001" (by decide),
    C6_path_amended.2 c6Env c6ArgsA initState rfl rfl rfl rfl rfl rfl rfl rfl⟩

/-! ## C9 — exception handling across dispatchers -/

def c9Env : I2IEnv :=
  { cuda := false, modelFileExists := true,
    loadExc := some (.runtimeError "size mismatch for unet"),
    vaeFileExists := false, vaeExc := none, innerExc := none,
    stopDuringInfer := false, date := "20240101", time := "20240101_120000" }

/-- C9 counterexample: an unexpected lower-level failure (a
`RuntimeError`, outside the caught `ValueError`/`KeyError` pair) raised
while `generate_image_img2img` loads its pipeline propagates to the
caller uncaught instead of being stringified into the message slot — the
blanket `except Exception` only wraps the generation phase. -/
theorem C9_counterexample :
    (generate_image_img2img c9Env
      ⟨"p", "", some "img.png", some "model", none, "SD"⟩ initState).result =
      .error (.runtimeError "size mismatch for unet") :=
  rfl

/-- C9 amended: failures raised inside img2img's guarded generation block
(image open, preprocessing, inference, save) are caught by its blanket
`except Exception` and returned as `(None, str(e))`; failures raised
during img2img's model load (outside `ValueError`/`KeyError`) or VAE
application still propagate.  In every other dispatcher an unexpected
failure during the primary inference propagates to the caller uncaught
(through the `finally`, with no blanket catch). -/
theorem C9_exception_amended :
    (∀ (env : I2IEnv) (a : I2IArgs) (s : GState) (e : PyExc),
      strFalsy a.stable_diffusion_model_name = false →
      strFalsy a.init_image = false →
      env.modelFileExists = true → a.stable_diffusion_model_type = "SD" →
      env.loadExc = none → env.vaeExc = none → env.innerExc = some e →
      (generate_image_img2img env a s).result = .ok (none, some e.str)) ∧
    (∀ (env : T2IEnv) (a : T2IArgs) (s : GState) (e : PyExc),
      strFalsy a.stable_diffusion_model_name = false →
      env.modelFileExists = true → a.stable_diffusion_model_type = "SD" →
      env.loadExc = none → env.vaeExc = none → env.loraExc = none →
      env.inferExc = some e →
      (generate_image_txt2img env a s).result = .error e) ∧
    (∀ (env : InpaintEnv) (a : InpaintArgs) (s : GState) (e : PyExc) (mp : String),
      strFalsy a.stable_diffusion_model_name = false →
      strFalsy a.init_image = false → a.mask_image = some (.filePath mp) →
      env.modelFileExists = true → a.stable_diffusion_model_type = "SD" →
      env.loadExc = none → env.vaeExc = none → env.inferExc = some e →
      (generate_image_inpaint env a s).result = .error e) ∧
    (∀ (env : AudioEnv) (a : AudioArgs) (s : GState) (e : PyExc),
      strFalsy a.model_name = false → a.model_type = "musicgen" →
      a.enable_multiband = false → env.getPretrainedExc = none →
      env.setGenParamsExc = none → env.genExc = some e →
      (generate_audio env a s).result = .error e) ∧
    (∀ (env : ChatEnv) (a : ChatArgs) (s : GState) (e : PyExc),
      a.input_text = "hi" → a.input_audio = none →
      a.llm_model_name = some "m" → a.llm_model_type = "transformers" →
      a.enable_tts = false → env.llmLoadExc = none → env.genExc = some e →
      (generate_text_and_speech env a s).result = .error e) ∧
    (∀ (env : VideoEnv) (a : VideoArgs) (s : GState) (e : PyExc),
      env.pipeLoadExc = none → env.inferExc = some e →
      (generate_video env a s).result = .error e) := by
  refine ⟨?_, ?_, ?_, ?_, ?_, ?_⟩
  · rintro ⟨cu, mfe, le, vfe, ve, ie, sdi, da, ti⟩
      ⟨pr, np, ii, mn, vn, mt⟩ ⟨ss, ch, cd, ap⟩ e h1 h2 h3 h4 h5 h6 h7
    simp only at h1 h2 h3 h4 h5 h6 h7
    subst h3; subst h4; subst h5; subst h6; subst h7
    cases mn with
    | none => simp [strFalsy] at h1
    | some nm =>
      cases ii with
      | none => simp [strFalsy] at h2
      | some im =>
        simp only [strFalsy] at h1 h2
        cases vn <;>
          simp [generate_image_img2img, sd_pipeline_finally, Trace.load,
            Trace.release, Trace.clearCache, Trace.empty, strFalsy, h1, h2]
  · rintro ⟨cu, mfe, le, vfe, ve, lre, ie, sdi, uc, da, ti⟩
      ⟨pr, np, mn, vn, lo, mt, eu, uf⟩ ⟨ss, ch, cd, ap⟩ e h1 h2 h3 h4 h5 h6 h7
    simp only at h1 h2 h3 h4 h5 h6 h7
    subst h2; subst h3; subst h4; subst h5; subst h6; subst h7
    cases mn with
    | none => simp [strFalsy] at h1
    | some nm =>
      simp only [strFalsy] at h1
      cases lo <;> cases vn <;>
        simp [generate_image_txt2img, sd_pipeline_finally, Trace.load,
          Trace.release, Trace.clearCache, Trace.empty, strFalsy, h1]
  · rintro ⟨cu, mfe, le, vfe, ve, ie, sdi, mpx, da, ti⟩
      ⟨pr, np, ii, mi, mn, vn, mt⟩ ⟨ss, ch, cd, ap⟩ e mp h1 h2 hm h3 h4 h5 h6 h7
    simp only at h1 h2 hm h3 h4 h5 h6 h7
    subst hm; subst h3; subst h4; subst h5; subst h6; subst h7
    cases mn with
    | none => simp [strFalsy] at h1
    | some nm =>
      cases ii with
      | none => simp [strFalsy] at h2
      | some im =>
        simp only [strFalsy] at h1 h2
        cases vn <;>
          simp [generate_image_inpaint, sd_pipeline_finally, mask_load, Trace.load,
            Trace.release, Trace.clearCache, Trace.empty, strFalsy, h1, h2]
  · rintro ⟨cu, mc, gpe, spe, mbe, ge, sg, da, ti⟩ ⟨pr, ia, mn, mt, d, mb⟩ ⟨ss, ch, cd, ap⟩ e
      h1 h2 h3 h4 h5 h6
    simp only at h1 h2 h3 h4 h5 h6
    subst h2; subst h3; subst h4; subst h5; subst h6
    cases mn with
    | none => simp [strFalsy] at h1
    | some nm =>
      simp only [strFalsy] at h1
      cases ap with
      | none =>
        cases mc <;>
          simp [generate_audio, generate_audio_core, load_audiocraft_model, audio_finally,
            Trace.load, Trace.mkdir, Trace.download, Trace.release, Trace.clearCache,
            Trace.empty, strFalsy, h1]
      | some p =>
        by_cases hp : (p == "") = true <;> cases mc <;>
          simp [generate_audio, generate_audio_core, load_audiocraft_model, audio_finally,
            Trace.load, Trace.mkdir, Trace.download, Trace.release, Trace.clearCache,
            Trace.empty, strFalsy, h1, hp]
  · rintro ⟨cu, wc, tc, tr, sdt, lle, sdl, dl, lo, sdg, ge, te, ti, tti⟩
      ⟨it, ia, mn, mt, av, et, sw, lg⟩ ⟨ss, ch, cd, ap⟩ e h1 h2 h3 h4 h5 h6 h7
    simp only at h1 h2 h3 h4 h5 h6 h7
    subst h1; subst h2; subst h3; subst h4; subst h5; subst h6; subst h7
    cases sdl <;>
      simp [generate_text_and_speech, load_model, chat_body, chat_llm_stage,
        chat_after_text, chat_finally, transcribe_audio, Trace.load, Trace.release,
        Trace.clearCache, Trace.download, Trace.empty, strFalsy]
  · rintro ⟨vc, ple, ie, sdi, da, ti⟩ a ⟨ss, ch, cd, ap⟩ e h1 h2
    simp only at h1 h2
    subst h1; subst h2
    cases vc <;>
      simp [generate_video, video_finally, Trace.load, Trace.download,
        Trace.release, Trace.clearCache, Trace.empty]

def c9wI2I : I2IEnv :=
  { cuda := false, modelFileExists := true, loadExc := none,
    vaeFileExists := false, vaeExc := none,
    innerExc := some (.otherError "CUDA out of memory"),
    stopDuringInfer := false, date := "20240101", time := "20240101_120000" }

def c9wT2I : T2IEnv :=
  { cuda := false, modelFileExists := true, loadExc := none,
    vaeFileExists := false, vaeExc := none, loraExc := none,
    inferExc := some (.otherError "CUDA out of memory"),
    stopDuringInfer := false, upscaleCached := true,
    date := "20240101", time := "20240101_120000" }

/-- C9 witness: a concrete failure inside img2img's generation block is
returned stringified, while the same failure in txt2img's inference
escapes. -/
theorem C9_exception_amended_witness :
    (generate_image_img2img c9wI2I
      ⟨"p", "", some "img.png", some "model", none, "SD"⟩ initState).result =
      .ok (none, some "CUDA out of memory") ∧
    (generate_image_txt2img c9wT2I
      ⟨"p", "", some "model", none, none, "SD", false, "x2"⟩ initState).result =
      .error (.otherError "CUDA out of memory") :=
  ⟨C9_exception_amended.1 c9wI2I
      ⟨"p", "", some "img.png", some "model", none, "SD"⟩ initState
      (.otherError "CUDA out of memory") rfl rfl rfl rfl rfl rfl rfl,
    C9_exception_amended.2.1 c9wT2I
      ⟨"p", "", some "model", none, none, "SD", false, "x2"⟩ initState
      (.otherError "CUDA out of memory") rfl rfl rfl rfl rfl rfl rfl⟩

/-! ## C10 — chat history growth -/

/-- `load_model` never touches the chat history (it may only raise the
stop flag). -/
theorem load_model_hist_eq (env : ChatEnv) (mn : Option String) (mt : String)
    (s : GState) (t : Trace) :
    (load_model env mn mt s t).2.1.chat_history = s.chat_history := by
  unfold load_model
  repeat first | rfl | split

/-- `transcribe_audio` leaves the chat history unchanged (it may only
raise the stop flag). -/
theorem transcribe_audio_hist (env : ChatEnv) (s : GState) (t : Trace) :
    (transcribe_audio env s t).2.1.chat_history = s.chat_history := by
  unfold transcribe_audio
  repeat first | rfl | split


/-! ## C10 helper lemmas and theorem -/

def chat_hist_spec (old : List (Option String × Option String))
    (o : ChatBody × Bool × Bool × GState × Trace) : Prop :=
  match o.1 with
  | .ret _ => ∃ en, o.2.2.2.1.chat_history = old ++ [en]
  | .exc _ => o.2.2.2.1.chat_history = old
  | .done _ _ _ => o.2.2.2.1.chat_history = old

theorem chat_after_text_hist (env : ChatEnv) (a : ChatArgs) (prompt : String)
    (text : Option String) (b1 b2 : Bool) (s : GState) (t : Trace) :
    chat_hist_spec s.chat_history (chat_after_text env a prompt text b1 b2 s t) := by
  obtain ⟨ss, ch, cd, ap⟩ := s
  simp only [chat_after_text]
  repeat' split
  all_goals simp [chat_hist_spec]

theorem chat_llm_stage_hist (env : ChatEnv) (a : ChatArgs) (prompt : String)
    (hasLLM hasTTS hasWhisper : Bool) (s : GState) (t : Trace) :
    chat_hist_spec s.chat_history
      (chat_llm_stage env a prompt hasLLM hasTTS hasWhisper s t) := by
  obtain ⟨ss, ch, cd, ap⟩ := s
  simp only [chat_llm_stage]
  repeat' split
  all_goals
    first
      | exact chat_after_text_hist env a prompt (some env.llmOutput) _ _ _ _
      | exact chat_after_text_hist env a prompt none _ _ _ _
      | simp [chat_hist_spec]

theorem chat_body_hist (env : ChatEnv) (a : ChatArgs) (prompt : String)
    (hasLLM : Bool) (s : GState) (t : Trace) :
    chat_hist_spec s.chat_history (chat_body env a prompt hasLLM s t) := by
  obtain ⟨ss, ch, cd, ap⟩ := s
  simp only [chat_body]
  repeat' split
  all_goals
    first
      | exact chat_llm_stage_hist env a prompt hasLLM _ _ _ _
      | simp [chat_hist_spec]

def call_hist_spec (old : List (Option String × Option String))
    (o : Outcome ChatRet) : Prop :=
  match o.result with
  | .ok _ => ∃ en, o.state.chat_history = old ++ [en]
  | .error _ => o.state.chat_history = old

theorem prompt_step_hist (env : ChatEnv) (a : ChatArgs) (s : GState) (t : Trace) :
    ((if strFalsy a.input_audio = true then (a.input_text, s, t)
      else transcribe_audio env s t).2.1).chat_history = s.chat_history := by
  split
  · rfl
  · exact transcribe_audio_hist env s t

/-- C10: every chat call that returns normally appends exactly one entry
to the global chat history (validation failures, load errors and stops
included) — the final history is the old history with a single entry
appended, so no existing entry is mutated or removed; a call that ends in
an exception appends none. -/
theorem C10_chat_history (env : ChatEnv) (a : ChatArgs) (s : GState) :
    call_hist_spec s.chat_history (generate_text_and_speech env a s) := by
  simp only [generate_text_and_speech]
  split
  · simp [call_hist_spec]
  · have hs2 := prompt_step_hist env a { s with stop_signal := false } Trace.empty
    split
    · simp [call_hist_spec, hs2]
    · split
      next e s3 t3 heq2 =>
        have h3 := congrArg (fun z => z.2.1.chat_history) heq2
        dsimp only at h3
        rw [load_model_hist_eq] at h3
        simp [call_hist_spec, ← h3, hs2]
      next tok llm m s3 t3 heq2 =>
        have h3 := congrArg (fun z => z.2.1.chat_history) heq2
        dsimp only at h3
        rw [load_model_hist_eq] at h3
        simp [call_hist_spec, ← h3, hs2]
      next tok llm s3 t3 heq2 =>
        have h3 := congrArg (fun z => z.2.1.chat_history) heq2
        dsimp only at h3
        rw [load_model_hist_eq] at h3
        have hb := chat_body_hist env a
          ((if strFalsy a.input_audio = true then
              (a.input_text, { s with stop_signal := false }, Trace.empty)
            else transcribe_audio env { s with stop_signal := false } Trace.empty).1)
          llm s3 t3
        split
        next r hTTS hW s4 t4 heq3 =>
          rw [heq3] at hb
          simp only [chat_hist_spec] at hb
          obtain ⟨en, hen⟩ := hb
          refine ⟨en, ?_⟩
          simp only [hen, ← h3, hs2]
        next e hTTS hW s4 t4 heq3 =>
          rw [heq3] at hb
          simp only [chat_hist_spec] at hb
          simp [call_hist_spec, hb, ← h3, hs2]
        next te au av hTTS hW s4 t4 heq3 =>
          rw [heq3] at hb
          simp only [chat_hist_spec] at hb
          refine ⟨(some ((if strFalsy a.input_audio = true then
              (a.input_text, { s with stop_signal := false }, Trace.empty)
            else transcribe_audio env { s with stop_signal := false } Trace.empty).1), te), ?_⟩
          simp [hb, ← h3, hs2]

/-! ## C7 helper lemmas and theorem -/

/-- Stop-checkpoint discipline of one dispatcher call: whenever the call
observed the stop flag at one of the named (at-or-before-primary)
checkpoints, it returned `(None, "Generation stopped")` and wrote no
output artifact file. -/
def stop_clean_spec (early : List String)
    (o : Outcome (Option String × Option String)) : Prop :=
  match o.trace.stoppedAt with
  | none => True
  | some cp => cp ∈ early →
      o.result = .ok (none, some "Generation stopped") ∧
      o.trace.filesWritten = []

/-- The txt2img upscale step does not move the stop observation or write
files when the flag is down at its start. -/
theorem txt2img_upscale_step_trace (enable : Bool) (factor : String)
    (cached : Bool) (s : GState) (t : Trace) (h : s.stop_signal = false) :
    (txt2img_upscale_step enable factor cached s t).2.stoppedAt = t.stoppedAt ∧
    (txt2img_upscale_step enable factor cached s t).2.filesWritten = t.filesWritten := by
  cases enable <;> cases cached <;>
    by_cases hf : (factor == "x2") = true <;>
    simp [txt2img_upscale_step, load_upscale_model, h, hf,
      Trace.load, Trace.download, Trace.stopObs]

theorem txt2img_stop_clean (env : T2IEnv) (a : T2IArgs) (s : GState) :
    stop_clean_spec ["after_main_inference"] (generate_image_txt2img env a s) := by
  simp only [generate_image_txt2img]
  repeat' split
  all_goals
    try simp [stop_clean_spec, sd_pipeline_finally, Trace.load, Trace.release,
      Trace.clearCache, Trace.stopObs, Trace.mkdir, Trace.writeFile, Trace.empty]
  all_goals
    first
      | (simp_all; done)
      | (rename_i t2 heq
         have hlm := txt2img_upscale_step_trace a.enable_upscale a.upscale_factor
           env.upscaleCached { s with stop_signal := false }
           (Trace.empty.load "stable_diffusion_model") rfl
         rw [heq] at hlm
         simp [Trace.load, Trace.empty] at hlm
         simp [hlm])


theorem img2img_stop_clean (env : I2IEnv) (a : I2IArgs) (s : GState) :
    stop_clean_spec ["after_main_inference"] (generate_image_img2img env a s) := by
  simp only [generate_image_img2img]
  repeat' split
  all_goals
    simp_all [stop_clean_spec, sd_pipeline_finally, Trace.load, Trace.release,
      Trace.clearCache, Trace.stopObs, Trace.mkdir, Trace.writeFile, Trace.empty]

theorem inpaint_stop_clean (env : InpaintEnv) (a : InpaintArgs) (s : GState) :
    stop_clean_spec ["after_main_inference"] (generate_image_inpaint env a s) := by
  simp only [generate_image_inpaint]
  repeat' split
  all_goals
    simp_all [stop_clean_spec, sd_pipeline_finally, Trace.load, Trace.release,
      Trace.clearCache, Trace.stopObs, Trace.mkdir, Trace.writeFile, Trace.empty]

theorem video_stop_clean (env : VideoEnv) (a : VideoArgs) (s : GState) :
    stop_clean_spec ["after_main_inference"] (generate_video env a s) := by
  simp only [generate_video]
  repeat' split
  all_goals
    simp_all [stop_clean_spec, video_finally, Trace.load, Trace.release,
      Trace.clearCache, Trace.stopObs, Trace.mkdir, Trace.writeFile, Trace.empty,
      Trace.download]

theorem audio_core_stop_clean (env : AudioEnv) (a : AudioArgs) (mpath : String)
    (s : GState) (t : Trace) (h : t.stoppedAt = none) (hf : t.filesWritten = []) :
    stop_clean_spec ["after_generate"] (generate_audio_core env a mpath s t) := by
  simp only [generate_audio_core]
  repeat' split
  all_goals
    simp_all [stop_clean_spec, audio_finally, Trace.load, Trace.release,
      Trace.clearCache, Trace.stopObs, Trace.mkdir, Trace.writeFile, Trace.empty,
      Trace.download]

theorem audio_stop_clean (env : AudioEnv) (a : AudioArgs) (s : GState) :
    stop_clean_spec ["after_generate"] (generate_audio env a s) := by
  simp only [generate_audio, load_audiocraft_model]
  repeat' split
  all_goals
    first
      | (simp_all [stop_clean_spec, Trace.empty]; done)
      | (refine audio_core_stop_clean env a _ _ _ ?_ ?_ <;>
          (repeat' split) <;>
          simp_all [Trace.stopObs, Trace.download, Trace.empty])

theorem load_upscale_model_trace (factor : Nat) (cached : Bool)
    (s : GState) (t : Trace) (h : s.stop_signal = false) :
    (load_upscale_model factor cached s t).2.stoppedAt = t.stoppedAt ∧
    (load_upscale_model factor cached s t).2.filesWritten = t.filesWritten := by
  cases cached <;>
    simp [load_upscale_model, h, Trace.load, Trace.download, Trace.stopObs]

theorem extras_stop_clean (env : ExtrasEnv) (a : ExtrasArgs) (s : GState) :
    stop_clean_spec ["extras_entry"] (generate_image_extras env a s) := by
  simp only [generate_image_extras]
  repeat' split
  all_goals
    first
      | (simp_all [stop_clean_spec, Trace.load, Trace.stopObs, Trace.mkdir,
          Trace.writeFile, Trace.empty, Trace.download]; done)
      | (rename_i t2 heq
         have hl := load_upscale_model_trace 2 env.upscaleCached s Trace.empty (by simp_all)
         rw [heq] at hl
         simp [Trace.empty] at hl
         simp [stop_clean_spec, Trace.mkdir, Trace.writeFile, hl])

def c7ChatEnv : ChatEnv :=
  { cuda := false, whisperCached := true, ttsCached := true,
    transcription := "t", stopDuringTranscribe := false,
    llmLoadExc := none, stopDuringLLMLoad := true, detectLang := "en",
    llmOutput := "resp", stopDuringGenerate := false, genExc := none,
    ttsExc := none, time := "20240101_120000", ttsTime := "20240101_120001" }

def c7ChatArgs : ChatArgs :=
  ⟨"hi", none, some "m", "transformers", none, true, some "voice.wav", some "en"⟩

/-- C7 counterexample: a chat call with TTS enabled in which the stop
button is pressed while the LLM loads.  The flag is observed at the
`load_tts_model` entry checkpoint — a checkpoint before the primary
inference — but instead of returning a "Generation stopped" result the
call raises: the loader returns the string "Generation stopped" in place
of a model and the caller's `.to(device)` on it raises AttributeError.
(No artifact is written, but the claimed canonical stopped result is
not produced.) -/
theorem C7_counterexample :
    (generate_text_and_speech c7ChatEnv c7ChatArgs initState).result =
      .error (.otherError "AttributeError: str object has no attribute to") ∧
    (generate_text_and_speech c7ChatEnv c7ChatArgs initState).trace.stoppedAt =
      some "load_tts_entry" ∧
    (generate_text_and_speech c7ChatEnv c7ChatArgs initState).trace.filesWritten = [] :=
  ⟨rfl, rfl, rfl⟩

/-- C7 amended: at every cancellation checkpoint at-or-before the primary
inference OTHER than chat's TTS/whisper loader entries, an observed stop
makes the dispatcher return the canonical "Generation stopped" result
with no output artifact file written (`stop_clean_spec`, first six
conjuncts; the extras dispatcher's only checkpoint is its entry).  The
chat dispatcher reports the stop as the response slot of the single
appended history entry: a stop pressed during transcription is observed
at the model-load entry checkpoint, and a stop pressed during the LLM
inference at the post-generation checkpoint; both paths write no file
(conjuncts 7-8).  But a stop pressed during the LLM load is observed at
the `load_tts_model` / `load_whisper_model` entry checkpoints, which
return the string "Generation stopped" in place of a model; the
subsequent `.to(device)` raises AttributeError, so the call raises
instead of returning a stopped result — though still with no artifact
file (conjuncts 9-10).  The last two conjuncts exhibit non-chat stopped
runs concretely, showing the checkpoints do fire. -/
theorem C7_stop_amended :
    (∀ (env : T2IEnv) (a : T2IArgs) (s : GState),
      stop_clean_spec ["after_main_inference"] (generate_image_txt2img env a s)) ∧
    (∀ (env : I2IEnv) (a : I2IArgs) (s : GState),
      stop_clean_spec ["after_main_inference"] (generate_image_img2img env a s)) ∧
    (∀ (env : InpaintEnv) (a : InpaintArgs) (s : GState),
      stop_clean_spec ["after_main_inference"] (generate_image_inpaint env a s)) ∧
    (∀ (env : VideoEnv) (a : VideoArgs) (s : GState),
      stop_clean_spec ["after_main_inference"] (generate_video env a s)) ∧
    (∀ (env : AudioEnv) (a : AudioArgs) (s : GState),
      stop_clean_spec ["after_generate"] (generate_audio env a s)) ∧
    (∀ (env : ExtrasEnv) (a : ExtrasArgs) (s : GState),
      stop_clean_spec ["extras_entry"] (generate_image_extras env a s)) ∧
    (∀ (cu tc sdl : Bool) (tr dl lo ti tti mt : String) (lle ge te : Option PyExc)
        (sg et : Bool) (av sw lg : Option String) (s : GState),
      generate_text_and_speech
        ⟨cu, true, tc, tr, true, lle, sdl, dl, lo, sg, ge, te, ti, tti⟩
        ⟨"", some "req.wav", some "m", mt, av, et, sw, lg⟩ s =
      ⟨.ok (.five (s.chat_history ++ [(none, some "Generation stopped")])
          none none none none),
        { s with
          stop_signal := true
          chat_history := s.chat_history ++ [(none, some "Generation stopped")] },
        (Trace.empty.load "whisper-transcribe").stopObs "load_model_entry"⟩) ∧
    (∀ (cu wc tc : Bool) (tr dl lo ti tti : String) (te : Option PyExc)
        (av sw lg : Option String) (s : GState),
      generate_text_and_speech
        ⟨cu, wc, tc, tr, false, none, false, dl, lo, true, none, te, ti, tti⟩
        ⟨"hi", none, some "m", "transformers", av, false, sw, lg⟩ s =
      ⟨.ok (.four (s.chat_history ++ [(some "hi", some "Generation stopped")])
          none none none),
        { s with
          stop_signal := true
          chat_history := s.chat_history ++ [(some "hi", some "Generation stopped")] },
        chat_finally true true false false
          (((Trace.empty.load "tokenizer").load "llm_model").stopObs "after_llm_generate")⟩) ∧
    (∀ (cu wc tc : Bool) (tr dl lo ti tti : String) (te : Option PyExc)
        (av : Option String) (s : GState),
      generate_text_and_speech
        ⟨cu, wc, tc, tr, false, none, true, dl, lo, false, none, te, ti, tti⟩
        ⟨"hi", none, some "m", "transformers", av, true, some "v", some "en"⟩ s =
      ⟨.error (.otherError "AttributeError: str object has no attribute to"),
        { s with stop_signal := true },
        chat_finally true true true false
          (((Trace.empty.load "tokenizer").load "llm_model").stopObs "load_tts_entry")⟩) ∧
    (∀ (cu tc : Bool) (tr dl lo ti tti : String) (te : Option PyExc)
        (av sw lg : Option String) (s : GState),
      generate_text_and_speech
        ⟨cu, true, tc, tr, false, none, true, dl, lo, false, none, te, ti, tti⟩
        ⟨"", some "req.wav", some "m", "transformers", av, false, sw, lg⟩ s =
      ⟨.error (.otherError "AttributeError: str object has no attribute to"),
        { s with stop_signal := true },
        chat_finally true true false true
          ((((Trace.empty.load "whisper-transcribe").load "tokenizer").load
            "llm_model").stopObs "load_whisper_entry")⟩) ∧
    (∀ (d ti : String) (cu vf uc mb : Bool) (s : GState),
      (generate_image_txt2img
        ⟨cu, true, none, vf, none, none, none, true, uc, d, ti⟩
        ⟨"p", "n", some "model", none, none, "SD", mb, "x2"⟩ s).result =
          .ok (none, some "Generation stopped") ∧
      (generate_image_txt2img
        ⟨cu, true, none, vf, none, none, none, true, uc, d, ti⟩
        ⟨"p", "n", some "model", none, none, "SD", mb, "x2"⟩ s).trace.stoppedAt =
          some "after_main_inference" ∧
      (generate_image_txt2img
        ⟨cu, true, none, vf, none, none, none, true, uc, d, ti⟩
        ⟨"p", "n", some "model", none, none, "SD", mb, "x2"⟩ s).trace.filesWritten = []) ∧
    (∀ (d ti : String) (cu mc : Bool) (ss : Bool)
        (ch : List (Option String × Option String)) (cd : Option String),
      (generate_audio ⟨cu, mc, none, none, none, none, true, d, ti⟩
        ⟨"p", none, some "m", "musicgen", 10, false⟩ ⟨ss, ch, cd, some "mpath"⟩).result =
          .ok (none, some "Generation stopped") ∧
      (generate_audio ⟨cu, mc, none, none, none, none, true, d, ti⟩
        ⟨"p", none, some "m", "musicgen", 10, false⟩ ⟨ss, ch, cd, some "mpath"⟩).trace.stoppedAt =
          some "after_generate") := by
  refine ⟨txt2img_stop_clean, img2img_stop_clean, inpaint_stop_clean, video_stop_clean,
    audio_stop_clean, extras_stop_clean, ?_, ?_, ?_, ?_, ?_, ?_⟩
  · exact fun _ _ _ _ _ _ _ _ _ _ _ _ _ _ _ _ _ _ => rfl
  · exact fun _ _ _ _ _ _ _ _ _ _ _ _ _ => rfl
  · exact fun _ _ _ _ _ _ _ _ _ _ _ => rfl
  · exact fun _ _ _ _ _ _ _ _ _ _ _ _ => rfl
  · exact fun _ _ _ _ _ _ _ => ⟨rfl, rfl, rfl⟩
  · exact fun _ _ _ _ _ _ _ => ⟨rfl, rfl⟩

/-! ## C1 helper lemmas and theorems -/

/-- Cleanup discipline for one named (primary) model handle: if the call
ever loaded it, the call also explicitly released it (`del`) and cleared
the accelerator cache before returning or letting an exception escape. -/
def cleanup_spec {α : Type} (primary : String) (o : Outcome α) : Prop :=
  primary ∈ o.trace.loaded →
    primary ∈ o.trace.released ∧ o.trace.cacheCleared = true

/-- Cleanup discipline for every handle the call loaded. -/
def full_cleanup_spec {α : Type} (o : Outcome α) : Prop :=
  ∀ p, p ∈ o.trace.loaded →
    p ∈ o.trace.released ∧ o.trace.cacheCleared = true

theorem txt2img_cleanup (env : T2IEnv) (a : T2IArgs) (s : GState)
    (hv : env.vaeExc = none) (hl : env.loraExc = none) :
    cleanup_spec "stable_diffusion_model" (generate_image_txt2img env a s) := by
  simp only [generate_image_txt2img, txt2img_upscale_step, load_upscale_model]
  repeat' split
  all_goals
    first
      | (simp_all [cleanup_spec, sd_pipeline_finally, Trace.load, Trace.release,
          Trace.clearCache, Trace.stopObs, Trace.mkdir, Trace.writeFile, Trace.empty,
          Trace.download]; done)
      | (rcases hlo : a.lora_model_names with _ | l <;>
          simp_all [cleanup_spec, sd_pipeline_finally, Trace.load, Trace.release,
            Trace.clearCache, Trace.stopObs, Trace.mkdir, Trace.writeFile, Trace.empty,
            Trace.download])

theorem img2img_cleanup (env : I2IEnv) (a : I2IArgs) (s : GState)
    (hv : env.vaeExc = none) :
    cleanup_spec "stable_diffusion_model" (generate_image_img2img env a s) := by
  simp only [generate_image_img2img]
  repeat' split
  all_goals
    simp_all [cleanup_spec, sd_pipeline_finally, Trace.load, Trace.release,
      Trace.clearCache, Trace.stopObs, Trace.mkdir, Trace.writeFile, Trace.empty]

theorem inpaint_cleanup (env : InpaintEnv) (a : InpaintArgs) (s : GState)
    (hv : env.vaeExc = none) :
    cleanup_spec "stable_diffusion_model" (generate_image_inpaint env a s) := by
  simp only [generate_image_inpaint]
  repeat' split
  all_goals
    simp_all [cleanup_spec, sd_pipeline_finally, Trace.load, Trace.release,
      Trace.clearCache, Trace.stopObs, Trace.mkdir, Trace.writeFile, Trace.empty]

theorem video_cleanup (env : VideoEnv) (a : VideoArgs) (s : GState) :
    full_cleanup_spec (generate_video env a s) := by
  simp only [generate_video]
  repeat' split
  all_goals
    simp_all [full_cleanup_spec, video_finally, Trace.load, Trace.release,
      Trace.clearCache, Trace.stopObs, Trace.mkdir, Trace.writeFile, Trace.empty,
      Trace.download]

theorem audio_core_cleanup (env : AudioEnv) (a : AudioArgs) (mpath : String)
    (s : GState) (t : Trace) (hsg : env.setGenParamsExc = none)
    (hmb : env.mbdLoadExc = none) (h : t.loaded = []) :
    full_cleanup_spec (generate_audio_core env a mpath s t) := by
  simp only [generate_audio_core]
  repeat' split
  all_goals
    simp_all [full_cleanup_spec, audio_finally, Trace.load, Trace.release,
      Trace.clearCache, Trace.stopObs, Trace.mkdir, Trace.writeFile, Trace.empty,
      Trace.download]

theorem audio_cleanup (env : AudioEnv) (a : AudioArgs) (s : GState)
    (hsg : env.setGenParamsExc = none) (hmb : env.mbdLoadExc = none) :
    full_cleanup_spec (generate_audio env a s) := by
  simp only [generate_audio, load_audiocraft_model]
  repeat' split
  all_goals
    first
      | (simp_all [full_cleanup_spec, Trace.empty]; done)
      | (refine audio_core_cleanup env a _ _ _ hsg hmb ?_ <;>
          (repeat' split) <;>
          simp_all [Trace.stopObs, Trace.download, Trace.empty])

/-- The chat `try` body never loads the LLM handle: if it is loaded at
the end of the body it was already loaded in the input trace. -/
def no_new_llm (tIn : Trace) (o : ChatBody × Bool × Bool × GState × Trace) : Prop :=
  "llm_model" ∈ o.2.2.2.2.loaded → "llm_model" ∈ tIn.loaded

theorem chat_after_text_no_llm (env : ChatEnv) (a : ChatArgs) (prompt : String)
    (text : Option String) (b1 b2 : Bool) (s : GState) (t : Trace) :
    no_new_llm t (chat_after_text env a prompt text b1 b2 s t) := by
  obtain ⟨ss, ch, cd, ap⟩ := s
  simp only [chat_after_text]
  repeat' split
  all_goals
    simp_all [no_new_llm, Trace.writeFile, Trace.mkdir, Trace.stopObs]

theorem no_new_llm_mono {t t2 : Trace} {o : ChatBody × Bool × Bool × GState × Trace}
    (h : no_new_llm t2 o)
    (hsub : "llm_model" ∈ t2.loaded → "llm_model" ∈ t.loaded) : no_new_llm t o :=
  fun hm => hsub (h hm)

theorem chat_llm_stage_no_llm (env : ChatEnv) (a : ChatArgs) (prompt : String)
    (hasLLM hasTTS hasWhisper : Bool) (s : GState) (t : Trace) :
    no_new_llm t (chat_llm_stage env a prompt hasLLM hasTTS hasWhisper s t) := by
  obtain ⟨ss, ch, cd, ap⟩ := s
  simp only [chat_llm_stage]
  repeat' split
  all_goals
    first
      | (simp [no_new_llm, Trace.load, Trace.download, Trace.stopObs,
          Trace.mkdir, Trace.writeFile]; done)
      | exact chat_after_text_no_llm env a prompt (some env.llmOutput) _ _ _ _
      | exact chat_after_text_no_llm env a prompt none _ _ _ _

set_option maxHeartbeats 1600000 in
theorem chat_body_no_llm (env : ChatEnv) (a : ChatArgs) (prompt : String)
    (hasLLM : Bool) (s : GState) (t : Trace) :
    no_new_llm t (chat_body env a prompt hasLLM s t) := by
  obtain ⟨ss, ch, cd, ap⟩ := s
  simp only [chat_body]
  repeat' split
  all_goals
    first
      | (simp [no_new_llm, Trace.load, Trace.download, Trace.stopObs,
          Trace.mkdir, Trace.writeFile]; done)
      | (simp_all [no_new_llm, Trace.load, Trace.download, Trace.stopObs,
          Trace.mkdir, Trace.writeFile]; done)
      | (refine no_new_llm_mono (chat_llm_stage_no_llm env a prompt hasLLM _ _ _ _) ?_
         intro hm
         (repeat' split at hm) <;> simp_all [Trace.load, Trace.download, Trace.stopObs])

/-- `chat_body` also sets the model flags through unchanged: its hasTTS /
hasWhisper outputs do not matter for the LLM handle; what matters is that
the `finally` releases the LLM when `hasLLM` is true. -/
theorem chat_finally_llm (hasTok hasTTS hasWhisper : Bool) (t : Trace) :
    "llm_model" ∈ (chat_finally hasTok true hasTTS hasWhisper t).released ∧
    (chat_finally hasTok true hasTTS hasWhisper t).cacheCleared = true := by
  cases hasTok <;> cases hasTTS <;> cases hasWhisper <;>
    simp [chat_finally, Trace.release, Trace.clearCache]

/-- `chat_finally` does not change the loaded set. -/
theorem chat_finally_loaded (b1 b2 b3 b4 : Bool) (t : Trace) :
    (chat_finally b1 b2 b3 b4 t).loaded = t.loaded := by
  cases b1 <;> cases b2 <;> cases b3 <;> cases b4 <;>
    simp [chat_finally, Trace.release, Trace.clearCache]

/-- `load_model` loads the LLM handle only when it reports a model
in memory (`hasLLM = true`): membership in the output trace comes from
the input trace otherwise. -/
theorem load_model_llm (env : ChatEnv) (mn : Option String) (mt : String)
    (s : GState) (t : Trace) (res : Except PyExc (Bool × Bool × Option String))
    (s2 : GState) (t2 : Trace) (h : load_model env mn mt s t = (res, s2, t2)) :
    "llm_model" ∈ t2.loaded →
      "llm_model" ∈ t.loaded ∨ ∃ tok, res = .ok (tok, true, none) := by
  unfold load_model at h
  repeat' split at h
  all_goals
    (cases h
     simp_all [Trace.load, Trace.stopObs])

theorem transcribe_audio_no_llm (env : ChatEnv) (s : GState) (t : Trace) :
    "llm_model" ∈ (transcribe_audio env s t).2.2.loaded → "llm_model" ∈ t.loaded := by
  simp only [transcribe_audio]
  repeat' split
  all_goals simp_all [Trace.load, Trace.download, Trace.stopObs]

theorem chat_cleanup (env : ChatEnv) (a : ChatArgs) (s : GState) :
    cleanup_spec "llm_model" (generate_text_and_speech env a s) := by
  simp only [generate_text_and_speech]
  split
  · simp [cleanup_spec, Trace.empty]
  · have hpt : "llm_model" ∈ ((if strFalsy a.input_audio = true then
        (a.input_text, { s with stop_signal := false }, Trace.empty)
      else transcribe_audio env { s with stop_signal := false } Trace.empty).2.2).loaded →
        False := by
      split
      · simp [Trace.empty]
      · intro h
        have h2 := transcribe_audio_no_llm env { s with stop_signal := false } Trace.empty h
        simp [Trace.empty] at h2
    split
    · intro h
      exact (hpt h).elim
    · split
      next e s3 t3 heq2 =>
        intro h
        rcases load_model_llm env a.llm_model_name a.llm_model_type _ _ _ _ _ heq2 h with
          hmem | ⟨tok, hres⟩
        · exact (hpt hmem).elim
        · exact absurd hres (by simp)
      next tok llm m s3 t3 heq2 =>
        intro h
        rcases load_model_llm env a.llm_model_name a.llm_model_type _ _ _ _ _ heq2 h with
          hmem | ⟨tok2, hres⟩
        · exact (hpt hmem).elim
        · simp at hres
      next tok llm s3 t3 heq2 =>
        have hb := chat_body_no_llm env a
          ((if strFalsy a.input_audio = true then
              (a.input_text, { s with stop_signal := false }, Trace.empty)
            else transcribe_audio env { s with stop_signal := false } Trace.empty).1)
          llm s3 t3
        split
        next r hTTS hW s4 t4 heq3 =>
          rw [heq3] at hb
          simp only [no_new_llm] at hb
          intro h
          rw [chat_finally_loaded] at h
          rcases load_model_llm env a.llm_model_name a.llm_model_type _ _ _ _ _ heq2 (hb h) with
            hmem | ⟨tok2, hres⟩
          · exact (hpt hmem).elim
          · simp only [Except.ok.injEq, Prod.mk.injEq] at hres
            obtain ⟨htok, hllm, hm⟩ := hres
            subst hllm
            exact ⟨(chat_finally_llm tok hTTS hW t4).1, (chat_finally_llm tok hTTS hW t4).2⟩
        next e hTTS hW s4 t4 heq3 =>
          rw [heq3] at hb
          simp only [no_new_llm] at hb
          intro h
          rw [chat_finally_loaded] at h
          rcases load_model_llm env a.llm_model_name a.llm_model_type _ _ _ _ _ heq2 (hb h) with
            hmem | ⟨tok2, hres⟩
          · exact (hpt hmem).elim
          · simp only [Except.ok.injEq, Prod.mk.injEq] at hres
            obtain ⟨htok, hllm, hm⟩ := hres
            subst hllm
            exact ⟨(chat_finally_llm tok hTTS hW t4).1, (chat_finally_llm tok hTTS hW t4).2⟩
        next te au av hTTS hW s4 t4 heq3 =>
          rw [heq3] at hb
          simp only [no_new_llm] at hb
          intro h
          rw [chat_finally_loaded] at h
          rcases load_model_llm env a.llm_model_name a.llm_model_type _ _ _ _ _ heq2 (hb h) with
            hmem | ⟨tok2, hres⟩
          · exact (hpt hmem).elim
          · simp only [Except.ok.injEq, Prod.mk.injEq] at hres
            obtain ⟨htok, hllm, hm⟩ := hres
            subst hllm
            exact ⟨(chat_finally_llm tok hTTS hW t4).1, (chat_finally_llm tok hTTS hW t4).2⟩

def c1LoraEnv : T2IEnv :=
  { cuda := false, modelFileExists := true, loadExc := none,
    vaeFileExists := false, vaeExc := none,
    loraExc := some (.runtimeError "lora load failed"), inferExc := none,
    stopDuringInfer := false, upscaleCached := true,
    date := "20240101", time := "20240101_120000" }

def c1LoraArgs : T2IArgs :=
  ⟨"p", "", some "model", none, some ["badlora"], "SD", false, "x2"⟩

def c1UpEnv : T2IEnv :=
  { cuda := false, modelFileExists := true, loadExc := none,
    vaeFileExists := false, vaeExc := none, loraExc := none, inferExc := none,
    stopDuringInfer := false, upscaleCached := true,
    date := "20240101", time := "20240101_120000" }

def c1UpArgs : T2IArgs :=
  ⟨"p", "", some "model", none, none, "SD", true, "x2"⟩

def c1MbdEnv : AudioEnv :=
  { cuda := false, modelDirCached := true, getPretrainedExc := none,
    setGenParamsExc := none, mbdLoadExc := some (.runtimeError "mbd load failed"),
    genExc := none, stopDuringGenerate := false,
    date := "20240101", time := "20240101_120000" }

def c1SgpEnv : AudioEnv :=
  { cuda := false, modelDirCached := true, getPretrainedExc := none,
    setGenParamsExc := some (.valueError "bad duration"), mbdLoadExc := none,
    genExc := none, stopDuringGenerate := false,
    date := "20240101", time := "20240101_120000" }

/-- C1 counterexample: runs violating the claim.  First, a txt2img
exception raised while applying LoRA weights (between the successful
pipeline load and the guarded block) escapes with the pipeline handle
loaded but never released and the cache never cleared.  Second, a
successful txt2img run with upscaling loads two handles but the `finally`
only releases the pipeline — the upscaler handle is never released.
Third, an audio run in which `MultiBandDiffusion.get_mbd_musicgen()`
(between the two `try` blocks) raises escapes with the model handle
loaded, nothing released and the cache uncleared.  Fourth, an audio run
in which `set_generation_params` raises a caught ValueError after a
successful `get_pretrained` returns the incompatibility message with the
handle still loaded, unreleased, cache uncleared. -/
theorem C1_counterexample :
    (generate_image_txt2img c1LoraEnv c1LoraArgs initState).result =
      .error (.runtimeError "lora load failed") ∧
    (generate_image_txt2img c1LoraEnv c1LoraArgs initState).trace.loaded =
      ["stable_diffusion_model"] ∧
    (generate_image_txt2img c1LoraEnv c1LoraArgs initState).trace.released = [] ∧
    (generate_image_txt2img c1LoraEnv c1LoraArgs initState).trace.cacheCleared = false ∧
    (generate_image_txt2img c1UpEnv c1UpArgs initState).trace.loaded =
      ["stable_diffusion_model", "upscaler-x2"] ∧
    (generate_image_txt2img c1UpEnv c1UpArgs initState).trace.released =
      ["stable_diffusion_model"] ∧
    (generate_audio c1MbdEnv ⟨"piano", none, some "musicgen-medium", "musicgen", 10, true⟩
        initState).result = .error (.runtimeError "mbd load failed") ∧
    (generate_audio c1MbdEnv ⟨"piano", none, some "musicgen-medium", "musicgen", 10, true⟩
        initState).trace.loaded = ["MusicGen:inputs/audio/audiocraft/musicgen-medium"] ∧
    (generate_audio c1MbdEnv ⟨"piano", none, some "musicgen-medium", "musicgen", 10, true⟩
        initState).trace.released = [] ∧
    (generate_audio c1MbdEnv ⟨"piano", none, some "musicgen-medium", "musicgen", 10, true⟩
        initState).trace.cacheCleared = false ∧
    (generate_audio c1SgpEnv ⟨"piano", none, some "musicgen-medium", "musicgen", 10, false⟩
        initState).result =
      .ok (none, some "The selected model is not compatible with the chosen model type") ∧
    (generate_audio c1SgpEnv ⟨"piano", none, some "musicgen-medium", "musicgen", 10, false⟩
        initState).trace.loaded = ["MusicGen:inputs/audio/audiocraft/musicgen-medium"] ∧
    (generate_audio c1SgpEnv ⟨"piano", none, some "musicgen-medium", "musicgen", 10, false⟩
        initState).trace.released = [] ∧
    (generate_audio c1SgpEnv ⟨"piano", none, some "musicgen-medium", "musicgen", 10, false⟩
        initState).trace.cacheCleared = false := by
  refine ⟨rfl, rfl, rfl, rfl, rfl, rfl, ?_, ?_, ?_, ?_, ?_, ?_, ?_, ?_⟩ <;> rfl

/-- C1 amended: each dispatcher's guaranteed-cleanup block releases its
primary model handle(s) and clears the accelerator cache on every exit
path that reaches it.  For chat the released primary is the LLM handle
(unconditionally); for the three image dispatchers the diffusion pipeline
handle, provided no exception is raised in the unguarded phase between
the load and the guarded block (VAE / LoRA application); video releases
every handle it loads on every path; audio releases every handle it loads
provided no exception is raised in ITS unguarded phase — the
`set_generation_params` call after a successful `get_pretrained` and the
multiband-diffusion load, both of which sit outside the `try ... finally`.
Exits that bypass the guarded block — validation failures before any
load, and unguarded-phase exceptions — perform no cleanup, and auxiliary
handles (the txt2img upscaler, chat's transcription model) are never
explicitly released (the counterexample). -/
theorem C1_cleanup_amended :
    (∀ (env : ChatEnv) (a : ChatArgs) (s : GState),
      cleanup_spec "llm_model" (generate_text_and_speech env a s)) ∧
    (∀ (env : T2IEnv) (a : T2IArgs) (s : GState),
      env.vaeExc = none → env.loraExc = none →
      cleanup_spec "stable_diffusion_model" (generate_image_txt2img env a s)) ∧
    (∀ (env : I2IEnv) (a : I2IArgs) (s : GState),
      env.vaeExc = none →
      cleanup_spec "stable_diffusion_model" (generate_image_img2img env a s)) ∧
    (∀ (env : InpaintEnv) (a : InpaintArgs) (s : GState),
      env.vaeExc = none →
      cleanup_spec "stable_diffusion_model" (generate_image_inpaint env a s)) ∧
    (∀ (env : VideoEnv) (a : VideoArgs) (s : GState),
      full_cleanup_spec (generate_video env a s)) ∧
    (∀ (env : AudioEnv) (a : AudioArgs) (s : GState),
      env.setGenParamsExc = none → env.mbdLoadExc = none →
      full_cleanup_spec (generate_audio env a s)) :=
  ⟨chat_cleanup, txt2img_cleanup, img2img_cleanup, inpaint_cleanup,
    video_cleanup, audio_cleanup⟩

def c1wAudioEnv : AudioEnv :=
  { cuda := false, modelDirCached := true, getPretrainedExc := none,
    setGenParamsExc := none, mbdLoadExc := none, genExc := none,
    stopDuringGenerate := false, date := "20240101", time := "20240101_120000" }

/-- C1 witness: the benign-oracle hypotheses hold at a concrete
successful txt2img run and at a concrete successful audio run, and the
amended theorem applies to both. -/
theorem C1_cleanup_amended_witness :
    c1UpEnv.vaeExc = none ∧ c1UpEnv.loraExc = none ∧
    cleanup_spec "stable_diffusion_model"
      (generate_image_txt2img c1UpEnv c1UpArgs initState) ∧
    c1wAudioEnv.setGenParamsExc = none ∧ c1wAudioEnv.mbdLoadExc = none ∧
    full_cleanup_spec (generate_audio c1wAudioEnv
      ⟨"piano", none, some "musicgen-medium", "musicgen", 10, false⟩ initState) :=
  ⟨rfl, rfl, C1_cleanup_amended.2.1 c1UpEnv c1UpArgs initState rfl rfl,
    rfl, rfl, C1_cleanup_amended.2.2.2.2.2 c1wAudioEnv
      ⟨"piano", none, some "musicgen-medium", "musicgen", 10, false⟩ initState rfl rfl⟩
